import Mathlib

/-!
Shallow embedding of the social-media backend (Flask services/repositories over
a relational store).  Python services and repositories under `src/backend/api`
are translated function by function; the relational layer (tables, SERIAL ids,
NOW() timestamps, CHECK constraints, foreign keys, the audit trigger, the
atomic community-creation procedure and the feed view live in `init.sql`,
which is not part of the source tree) is modelled as explicit state passing
over a `DB` record, with the schema-side behaviour taken from the
specification where marked.

Conventions: SQL SERIAL ids and NOW() timestamps are both drawn from a single
monotone counter `DB.nextId` (fresh and increasing, which is all the code
relies on).  Python truthiness of optional strings / ints is made explicit
(`optStrTruthy`, `optNatTruthy`).  Functions that raise exceptions are
modelled with `Except String`.
-/

namespace Social

/-- Python truthiness of an `Optional[str]`: `None` and the empty string are
falsy, every other string is truthy. -/
def optStrTruthy : Option String → Bool
  | none => false
  | some s => !(s == "")

/-- Python truthiness of an `Optional[int]`: `None` and `0` are falsy. -/
def optNatTruthy : Option Nat → Bool
  | none => false
  | some n => !(n == 0)

/-- Python `ch in s` membership test for a single character. -/
def strContainsChar (s : String) (c : Char) : Bool :=
  s.data.any (fun d => d == c)

/-- Whitespace set stripped by Python `str.strip()`: the characters for
which Python `str.isspace()` holds — ASCII whitespace U+0009..U+000D and
U+0020, the file/group/record/unit separators U+001C..U+001F, NEL U+0085,
NBSP U+00A0, OGHAM SPACE MARK U+1680, the space characters
U+2000..U+200A, the line and paragraph separators U+2028 and U+2029,
NARROW NO-BREAK SPACE U+202F, MEDIUM MATHEMATICAL SPACE U+205F, and
IDEOGRAPHIC SPACE U+3000. -/
def pyIsSpace (c : Char) : Bool :=
  c == ' ' || c == '\t' || c == '\n' || c == '\r' || c == '\x0b' || c == '\x0c'
    || c == '\x1c' || c == '\x1d' || c == '\x1e' || c == '\x1f'
    || c == '\x85' || c == '\xa0' || c == '\u1680'
    || c == '\u2000' || c == '\u2001' || c == '\u2002' || c == '\u2003'
    || c == '\u2004' || c == '\u2005' || c == '\u2006' || c == '\u2007'
    || c == '\u2008' || c == '\u2009' || c == '\u200A'
    || c == '\u2028' || c == '\u2029' || c == '\u202F' || c == '\u205F'
    || c == '\u3000'

/-- Python `s.strip()` on the underlying character list. -/
def stripChars (l : List Char) : List Char :=
  ((l.dropWhile pyIsSpace).reverse.dropWhile pyIsSpace).reverse

/-- Python `len(s)` (number of code points). -/
def pyLen (s : String) : Nat := s.data.length

/-- Modelled from the spec: the `Users.email` CHECK constraint of `init.sql`
(not in the source tree).  Spec section 8: the email must contain exactly one
`@` with non-empty local and domain parts (rejecting `noat.com` and
`user@`). -/
def emailWellformed (e : String) : Bool :=
  (e.data.countP (fun c => c == '@') == 1)
    && !(e.data.head? == some '@')
    && !(e.data.getLast? == some '@')

/-! ## Table rows (schema section 3 of the spec, columns as used by the code) -/

/-- Row of the `Users` table. -/
structure UserRow where
  user_id : Nat
  username : String
  email : String
  password_hash : String
  bio : Option String := none
  profile_picture_url : Option String := none
  is_private : Bool := false
  deriving Repr, DecidableEq

/-- Row of the `Posts` table.  `created_at` is the insertion timestamp. -/
structure PostRow where
  post_id : Nat
  user_id : Nat
  community_id : Option Nat := none
  content : Option String := none
  media_url : Option String := none
  created_at : Nat := 0
  deriving Repr, DecidableEq

/-- Row of the `Comments` table. -/
structure CommentRow where
  comment_id : Nat
  post_id : Nat
  user_id : Nat
  content : String
  parent_comment_id : Option Nat := none
  deriving Repr, DecidableEq

/-- Row of the `PostLikes` table (composite key). -/
structure LikeRow where
  post_id : Nat
  user_id : Nat
  deriving Repr, DecidableEq

/-- Row of the `Follows` table; `status_id`: 1 = pending, 2 = accepted,
3 = rejected. -/
structure FollowRow where
  follower_id : Nat
  following_id : Nat
  status_id : Nat
  deriving Repr, DecidableEq

/-- Row of the `Communities` table. -/
structure CommunityRow where
  community_id : Nat
  name : String
  description : String
  creator_id : Nat
  privacy_id : Nat
  created_at : Nat := 0
  deriving Repr, DecidableEq

/-- Row of the `CommunityMembers` table; `role_id`: 1 = admin,
2 = moderator, 3 = member. -/
structure MemberRow where
  community_id : Nat
  user_id : Nat
  role_id : Nat
  joined_at : Nat := 0
  deriving Repr, DecidableEq

/-- Row of the `Messages` table. -/
structure MessageRow where
  message_id : Nat
  sender_id : Nat
  receiver_id : Nat
  content : Option String := none
  media_url : Option String := none
  is_read : Bool := false
  deriving Repr, DecidableEq

/-- Row of the `AuditLog` table as written by the user-deletion trigger
(modelled from the spec: table name, operation kind, username, email and a
full snapshot of the deleted row). -/
structure AuditRow where
  table_name : String
  operation : String
  username : String
  email : String
  snapshot : UserRow
  deriving Repr, DecidableEq

/-- The relational store.  `nextId` is the single monotone source for SERIAL
ids and NOW() timestamps. -/
structure DB where
  users : List UserRow := []
  posts : List PostRow := []
  comments : List CommentRow := []
  likes : List LikeRow := []
  follows : List FollowRow := []
  communities : List CommunityRow := []
  members : List MemberRow := []
  messages : List MessageRow := []
  audit : List AuditRow := []
  nextId : Nat := 1
  deriving Repr, DecidableEq

/-- The seeded `Roles` lookup table (spec section 3: admin = 1,
moderator = 2, member = 3). -/
def rolesTable : List Nat := [1, 2, 3]

/-! ## Entity validation (`entities.py`) -/

/-- The entity `User.validate` from `entities.py`. -/
def userValidate (username email : Option String) : List String :=
  (if !(optStrTruthy username) || pyLen (username.getD "") < 3 then
    ["Username must be at least 3 characters"] else [])
  ++ (if optStrTruthy username && decide (pyLen (username.getD "") > 50) then
    ["Username must be at most 50 characters"] else [])
  ++ (if !(optStrTruthy email) || !(strContainsChar (email.getD "") '@') then
    ["Invalid email format"] else [])

/-- The entity `Post.validate` from `entities.py`. -/
def postValidate (content media_url : Option String) : List String :=
  (if !(optStrTruthy content) && !(optStrTruthy media_url) then
    ["Post must have content or media"] else [])
  ++ (if optStrTruthy content && decide (pyLen (content.getD "") > 5000) then
    ["Content must be at most 5000 characters"] else [])

/-- The entity `Comment.validate` from `entities.py`. -/
def commentValidate (content : Option String) : List String :=
  (if !(optStrTruthy content) || (stripChars (content.getD "").data).length == 0 then
    ["Comment content is required"] else [])
  ++ (if optStrTruthy content && decide (pyLen (content.getD "") > 2000) then
    ["Comment must be at most 2000 characters"] else [])

/-- The entity `Message.validate` from `entities.py`. -/
def messageValidate (content media_url : Option String) : List String :=
  (if !(optStrTruthy content) && !(optStrTruthy media_url) then
    ["Message must have content or media"] else [])
  ++ (if optStrTruthy content && decide (pyLen (content.getD "") > 5000) then
    ["Message must be at most 5000 characters"] else [])

/-- The entity `Community.validate` from `entities.py`. -/
def communityValidate (name : Option String) : List String :=
  (if !(optStrTruthy name) || pyLen (name.getD "") < 3 then
    ["Community name must be at least 3 characters"] else [])
  ++ (if optStrTruthy name && decide (pyLen (name.getD "") > 100) then
    ["Community name must be at most 100 characters"] else [])

/-! ## User repository (`user_repository.py`)

Uniqueness of username/email and the email CHECK constraint live in the
database; a violated constraint raises `IntegrityError`, which
`user_repository.py` maps to `ValueError("Username or email already exists")`
after rolling the transaction back.  The email CHECK itself is modelled from
the spec (`emailWellformed`), the uniqueness constraints from spec section 3
(unique username, unique email). -/

/-- `UserRepository.create`: INSERT with the DB-side uniqueness and email
constraints; on `IntegrityError` the transaction is rolled back and
`ValueError` is raised. -/
def userRepoCreate (db : DB) (username email password_hash : String)
    (bio profile_picture_url : Option String) (is_private : Bool) :
    Except String UserRow × DB :=
  if db.users.any (fun u => u.username == username || u.email == email)
      || !(emailWellformed email) then
    (.error "Username or email already exists", db)
  else
    let row : UserRow :=
      { user_id := db.nextId, username := username, email := email,
        password_hash := password_hash, bio := bio,
        profile_picture_url := profile_picture_url, is_private := is_private }
    (.ok row, { db with users := db.users ++ [row], nextId := db.nextId + 1 })

/-- `UserRepository.get_by_id`. -/
def userRepoGetById (db : DB) (uid : Nat) : Option UserRow :=
  db.users.find? (fun u => u.user_id == uid)

/-- `UserRepository.get_by_username`. -/
def userRepoGetByUsername (db : DB) (username : String) : Option UserRow :=
  db.users.find? (fun u => u.username == username)

/-- `UserRepository.get_by_email`. -/
def userRepoGetByEmail (db : DB) (email : String) : Option UserRow :=
  db.users.find? (fun u => u.email == email)

/-- `UserRepository.update`: UPDATE of all profile columns; DB-side
uniqueness and email CHECK as in `userRepoCreate` (violations roll back and
raise `ValueError`). -/
def userRepoUpdate (db : DB) (user : UserRow) : Except String UserRow × DB :=
  if db.users.any (fun u => !(u.user_id == user.user_id)
        && (u.username == user.username || u.email == user.email))
      || !(emailWellformed user.email) then
    (.error "Username or email already exists", db)
  else
    (.ok user,
      { db with users := db.users.map (fun u =>
          if u.user_id == user.user_id then user else u) })

/-- Modelled from the spec: the schema-side effects of
`UserRepository.delete` — the `init.sql` audit trigger writes, in the same
transaction as the DELETE, one AuditLog row with table name "Users",
operation "DELETE", the username, the email and a full snapshot of the
row; dependent rows (authored content, likes, follows, messages,
memberships) are removed by ON DELETE CASCADE. -/
def userRepoDelete (db : DB) (uid : Nat) : Bool × DB :=
  match db.users.find? (fun u => u.user_id == uid) with
  | none => (false, db)
  | some u =>
    let deadPosts := db.posts.filter (fun p => p.user_id == uid)
    let auditRow : AuditRow :=
      { table_name := "Users", operation := "DELETE",
        username := u.username, email := u.email, snapshot := u }
    (true,
      { db with
        users := db.users.filter (fun v => !(v.user_id == uid)),
        posts := db.posts.filter (fun p => !(p.user_id == uid)),
        comments := db.comments.filter (fun c => !(c.user_id == uid)
          && !(deadPosts.any (fun p => p.post_id == c.post_id))),
        likes := db.likes.filter (fun l => !(l.user_id == uid)
          && !(deadPosts.any (fun p => p.post_id == l.post_id))),
        follows := db.follows.filter (fun f =>
          !(f.follower_id == uid) && !(f.following_id == uid)),
        messages := db.messages.filter (fun m =>
          !(m.sender_id == uid) && !(m.receiver_id == uid)),
        members := db.members.filter (fun m => !(m.user_id == uid)),
        audit := db.audit ++ [auditRow] })

/-! ## Follow repository (`follow_repository.py`) -/

/-- `FollowRepository.create`: INSERT; the composite primary key
(follower, following), the two user foreign keys and the status foreign key
are database constraints (spec section 3); an `IntegrityError` is mapped to
`ValueError("Follow relationship already exists")`. -/
def followRepoCreate (db : DB) (f : FollowRow) : Except String FollowRow × DB :=
  if db.follows.any (fun g =>
        g.follower_id == f.follower_id && g.following_id == f.following_id)
      || !(db.users.any (fun u => u.user_id == f.follower_id))
      || !(db.users.any (fun u => u.user_id == f.following_id))
      || !(f.status_id == 1 || f.status_id == 2 || f.status_id == 3) then
    (.error "Follow relationship already exists", db)
  else
    (.ok f, { db with follows := db.follows ++ [f] })

/-- `FollowRepository.get_by_ids`. -/
def followRepoGetByIds (db : DB) (follower_id following_id : Nat) :
    Option FollowRow :=
  db.follows.find? (fun f =>
    f.follower_id == follower_id && f.following_id == following_id)

/-- `FollowRepository.update_status`: UPDATE of the matching row, RETURNING
the updated row. -/
def followRepoUpdateStatus (db : DB) (follower_id following_id status_id : Nat) :
    Option FollowRow × DB :=
  let follows := db.follows.map (fun g =>
    if g.follower_id == follower_id && g.following_id == following_id then
      { g with status_id := status_id }
    else g)
  (follows.find? (fun f =>
      f.follower_id == follower_id && f.following_id == following_id),
    { db with follows := follows })

/-- `FollowRepository.delete`. -/
def followRepoDelete (db : DB) (follower_id following_id : Nat) : Bool × DB :=
  let existed := db.follows.any (fun f =>
    f.follower_id == follower_id && f.following_id == following_id)
  (existed,
    { db with follows := db.follows.filter (fun f =>
        !(f.follower_id == follower_id && f.following_id == following_id)) })

/-! ## Post repository (`post_repository.py`) -/

/-- Row shape produced by the `*_with_stats` queries: the post columns plus
`like_count` (COUNT DISTINCT of liking users), `comment_count`
(COUNT DISTINCT of comment ids) and `liked_by_user`. -/
structure PostStats where
  post : PostRow
  like_count : Nat
  comment_count : Nat
  liked_by_user : Bool
  deriving Repr, DecidableEq

/-- The engagement columns computed by the stats queries for one post row.
`liked_by_user` follows the SQL `CASE WHEN :user_id IS NOT NULL THEN
EXISTS(...) ELSE FALSE END` (an SQL NULL test, not Python truthiness). -/
def statsFor (db : DB) (viewer : Option Nat) (p : PostRow) : PostStats :=
  { post := p,
    like_count :=
      (((db.likes.filter (fun l => l.post_id == p.post_id)).map
        (fun l => l.user_id)).dedup).length,
    comment_count :=
      (((db.comments.filter (fun c => c.post_id == p.post_id)).map
        (fun c => c.comment_id)).dedup).length,
    liked_by_user :=
      match viewer with
      | some v => db.likes.any (fun l => l.post_id == p.post_id && l.user_id == v)
      | none => false }

/-- SQL `ORDER BY created_at DESC` over post rows. -/
def sortPostsDesc (l : List PostRow) : List PostRow :=
  l.mergeSort (fun a b => decide (b.created_at ≤ a.created_at))

/-- `PostRepository.create`: plain INSERT (no try/except in the source; a
foreign-key violation, a database constraint per spec section 3, would
propagate as an exception). -/
def postRepoCreate (db : DB) (user_id : Nat) (community_id : Option Nat)
    (content media_url : Option String) : Except String PostRow × DB :=
  if !(db.users.any (fun u => u.user_id == user_id))
      || (match community_id with
          | some c => !(db.communities.any (fun k => k.community_id == c))
          | none => false)
      || (!(optStrTruthy content) && !(optStrTruthy media_url)) then
    (.error "IntegrityError", db)
  else
    let row : PostRow :=
      { post_id := db.nextId, user_id := user_id, community_id := community_id,
        content := content, media_url := media_url, created_at := db.nextId }
    (.ok row, { db with posts := db.posts ++ [row], nextId := db.nextId + 1 })

/-- `PostRepository.get_by_id`. -/
def postRepoGetById (db : DB) (post_id : Nat) : Option PostRow :=
  db.posts.find? (fun p => p.post_id == post_id)

/-- `PostRepository.get_with_stats`. -/
def postRepoGetWithStats (db : DB) (post_id : Nat) (viewer : Option Nat) :
    Option PostStats :=
  (db.posts.find? (fun p => p.post_id == post_id)).map (statsFor db viewer)

/-- `PostRepository.get_by_user_id_with_stats`: the posts of one author,
newest first, paginated. -/
def postRepoGetByUserIdWithStats (db : DB) (user_id : Nat)
    (current_user_id : Option Nat) (limit offset : Nat) : List PostStats :=
  ((((sortPostsDesc (db.posts.filter (fun p => p.user_id == user_id))).drop
    offset).take limit).map (statsFor db current_user_id))

/-- `PostRepository.count` with a `user_id` filter (the branch the services
use for user listings). -/
def postRepoCountByUser (db : DB) (user_id : Nat) : Nat :=
  (db.posts.filter (fun p => p.user_id == user_id)).length

/-- Modelled from the spec: `user_feed_view` of `init.sql` (not in the
source tree).  Spec section 4.4: for a viewing user, all posts authored by
accounts that user accept-follows (status = accepted), including author
identity fields (hence an inner join on `Users`). -/
def userFeedView (db : DB) (viewing_user_id : Nat) : List PostRow :=
  db.posts.filter (fun p =>
    db.follows.any (fun f => f.follower_id == viewing_user_id
      && f.following_id == p.user_id && f.status_id == 2)
    && db.users.any (fun u => u.user_id == p.user_id))

/-- `PostRepository.get_feed_with_stats`: SELECT from `user_feed_view` for
the viewer, newest first, paginated, plus the `liked_by_user` EXISTS. -/
def postRepoGetFeedWithStats (db : DB) (user_id : Nat) (limit offset : Nat) :
    List PostStats :=
  ((((sortPostsDesc (userFeedView db user_id)).drop offset).take limit).map
    (statsFor db (some user_id)))

/-! ## Comment repository (`comment_repository.py`) -/

/-- `CommentRepository.get_by_id`: SELECT joined with `Users` on the author
(a comment whose author row is gone is not returned). -/
def commentRepoGetById (db : DB) (comment_id : Nat) : Option CommentRow :=
  match db.comments.find? (fun c => c.comment_id == comment_id) with
  | some c =>
    if db.users.any (fun u => u.user_id == c.user_id) then some c else none
  | none => none

/-- `CommentRepository.create`: INSERT RETURNING the new id, then a
`get_by_id` fetch.  The post/user/parent foreign keys and the non-blank
content CHECK are database constraints (spec sections 3 and 4.1, `init.sql`
not in the source tree); violations propagate as exceptions. -/
def commentRepoCreate (db : DB) (post_id user_id : Nat) (content : String)
    (parent_comment_id : Option Nat) : Except String CommentRow × DB :=
  if !(db.posts.any (fun p => p.post_id == post_id))
      || !(db.users.any (fun u => u.user_id == user_id))
      || (match parent_comment_id with
          | some pc => !(db.comments.any (fun c => c.comment_id == pc))
          | none => false)
      || (stripChars content.data).length == 0 then
    (.error "IntegrityError", db)
  else
    let row : CommentRow :=
      { comment_id := db.nextId, post_id := post_id, user_id := user_id,
        content := content, parent_comment_id := parent_comment_id }
    (.ok row, { db with comments := db.comments ++ [row], nextId := db.nextId + 1 })

/-! ## Community repository (`community_repository.py`) -/

/-- Modelled from the spec: the atomic `create_community_with_admin`
routine of `init.sql` (not in the source tree) behind
`CommunityRepository.create` inserts the Community row and a
CommunityMember row for the creator with role = admin inside one
transaction — either both inserts succeed or neither does; on a name
collision the whole operation rolls back.  The repository maps the
resulting `IntegrityError` to `ValueError("Community name already
exists")`. -/
def communityRepoCreate (db : DB) (name description : String)
    (creator_id privacy_id : Nat) : Except String CommunityRow × DB :=
  if db.communities.any (fun c => c.name == name)
      || !(db.users.any (fun u => u.user_id == creator_id)) then
    (.error "Community name already exists", db)
  else
    let row : CommunityRow :=
      { community_id := db.nextId, name := name, description := description,
        creator_id := creator_id, privacy_id := privacy_id,
        created_at := db.nextId }
    let memberRow : MemberRow :=
      { community_id := db.nextId, user_id := creator_id, role_id := 1,
        joined_at := db.nextId }
    (.ok row,
      { db with communities := db.communities ++ [row],
                members := db.members ++ [memberRow],
                nextId := db.nextId + 1 })

/-- `CommunityRepository.get_by_id`. -/
def communityRepoGetById (db : DB) (community_id : Nat) : Option CommunityRow :=
  db.communities.find? (fun c => c.community_id == community_id)

/-- `CommunityRepository.get_member`. -/
def communityRepoGetMember (db : DB) (community_id user_id : Nat) :
    Option MemberRow :=
  db.members.find? (fun m =>
    m.community_id == community_id && m.user_id == user_id)

/-- The rows feeding `CommunityRepository.get_members`: membership rows of
the community joined with `Users` and `Roles`. -/
def memberJoinRows (db : DB) (community_id : Nat) : List MemberRow :=
  db.members.filter (fun m => m.community_id == community_id
    && db.users.any (fun u => u.user_id == m.user_id)
    && rolesTable.any (fun r => r == m.role_id))

/-- `CommunityRepository.get_members`: the join, ordered by `joined_at`
descending, paginated. -/
def communityRepoGetMembers (db : DB) (community_id : Nat) (limit offset : Nat) :
    List MemberRow :=
  ((((memberJoinRows db community_id).mergeSort
    (fun a b => decide (b.joined_at ≤ a.joined_at))).drop offset).take limit)

/-- `CommunityRepository.add_member`: INSERT; the composite primary key
maps an `IntegrityError` to `ValueError("User is already a member of this
community")`. -/
def communityRepoAddMember (db : DB) (community_id user_id role_id : Nat) :
    Except String MemberRow × DB :=
  if db.members.any (fun m =>
        m.community_id == community_id && m.user_id == user_id)
      || !(db.users.any (fun u => u.user_id == user_id))
      || !(db.communities.any (fun c => c.community_id == community_id))
      || !(rolesTable.any (fun r => r == role_id)) then
    (.error "User is already a member of this community", db)
  else
    let row : MemberRow :=
      { community_id := community_id, user_id := user_id, role_id := role_id,
        joined_at := db.nextId }
    (.ok row, { db with members := db.members ++ [row], nextId := db.nextId + 1 })

/-- `CommunityRepository.remove_member`: DELETE RETURNING. -/
def communityRepoRemoveMember (db : DB) (community_id user_id : Nat) :
    Bool × DB :=
  let existed := db.members.any (fun m =>
    m.community_id == community_id && m.user_id == user_id)
  (existed,
    { db with members := db.members.filter (fun m =>
        !(m.community_id == community_id && m.user_id == user_id)) })

/-- `CommunityRepository.update_member_role`: UPDATE RETURNING. -/
def communityRepoUpdateMemberRole (db : DB) (community_id user_id role_id : Nat) :
    Option MemberRow × DB :=
  let members := db.members.map (fun m =>
    if m.community_id == community_id && m.user_id == user_id then
      { m with role_id := role_id }
    else m)
  (members.find? (fun m =>
      m.community_id == community_id && m.user_id == user_id),
    { db with members := members })

/-! ## Message repository (`message_repository.py`) -/

/-- `MessageRepository.create`: INSERT; the sender/receiver foreign keys and
the CHECK constraints of spec section 4.1 (sender differs from receiver,
content or media present) are database constraints; a violation rolls back
and propagates. -/
def messageRepoCreate (db : DB) (sender_id receiver_id : Nat)
    (content media_url : Option String) (is_read : Bool) :
    Except String MessageRow × DB :=
  if !(db.users.any (fun u => u.user_id == sender_id))
      || !(db.users.any (fun u => u.user_id == receiver_id))
      || sender_id == receiver_id
      || (!(optStrTruthy content) && !(optStrTruthy media_url)) then
    (.error "IntegrityError", db)
  else
    let row : MessageRow :=
      { message_id := db.nextId, sender_id := sender_id,
        receiver_id := receiver_id, content := content,
        media_url := media_url, is_read := is_read }
    (.ok row, { db with messages := db.messages ++ [row], nextId := db.nextId + 1 })

/-! ## Follow service (`follow_service.py`) -/

/-- Result dict of the follow-service operations: either
`{"success": False, "error": e}` or `{"success": True, "message": m,
("status": s,) "follow": row}` (empty `status` when the dict has none).
`exn` marks a propagated exception. -/
inductive FollowResult where
  | err : String → FollowResult
  | ok : String → String → FollowRow → FollowResult
  | exn : String → FollowResult
  deriving Repr, DecidableEq

/-- `FollowService.follow_user`: auto-accept on a public target, pending on
a private one; re-request allowed after a rejection; self-follows and
duplicate requests are rejected. -/
def followUser (db : DB) (follower_id following_id : Nat) : FollowResult × DB :=
  if follower_id == following_id then
    (.err "Cannot follow yourself", db)
  else
    match userRepoGetById db following_id with
    | none => (.err "User not found", db)
    | some following_user =>
      match followRepoGetByIds db follower_id following_id with
      | some existing =>
        if existing.status_id == 2 then
          (.err "Already following this user", db)
        else if existing.status_id == 1 then
          (.err "Follow request already pending", db)
        else if existing.status_id == 3 then
          match followRepoUpdateStatus db follower_id following_id 1 with
          | (some updated, db2) =>
            (.ok "Follow request sent" "pending" updated, db2)
          | (none, db2) => (.exn "AttributeError", db2)
        else
          -- a row with a status outside 1..3 falls through to the INSERT,
          -- which hits the duplicate-key constraint
          followUserInsert db follower_id following_id following_user
      | none => followUserInsert db follower_id following_id following_user
where
  /-- The creation tail of `follow_user`: status from the target privacy,
  then `FollowRepository.create`. -/
  followUserInsert (db : DB) (follower_id following_id : Nat)
      (following_user : UserRow) : FollowResult × DB :=
    let status_id : Nat := if following_user.is_private then 1 else 2
    match followRepoCreate db
        { follower_id := follower_id, following_id := following_id,
          status_id := status_id } with
    | (.ok created, db2) =>
      (.ok (if status_id == 1 then "Follow request sent" else "Now following")
        (if status_id == 1 then "pending" else "accepted") created, db2)
    | (.error e, db2) => (.exn e, db2)

/-- `FollowService.accept_follow_request`: only a pending request can be
accepted. -/
def acceptFollowRequest (db : DB) (follower_id following_id : Nat) :
    FollowResult × DB :=
  match followRepoGetByIds db follower_id following_id with
  | none => (.err "Follow request not found", db)
  | some existing =>
    if existing.status_id == 2 then
      (.err "Follow request already accepted", db)
    else if !(existing.status_id == 1) then
      (.err "Invalid follow request status", db)
    else
      match followRepoUpdateStatus db follower_id following_id 2 with
      | (some updated, db2) => (.ok "Follow request accepted" "" updated, db2)
      | (none, db2) => (.exn "AttributeError", db2)

/-- `FollowService.reject_follow_request`: only a pending request can be
rejected. -/
def rejectFollowRequest (db : DB) (follower_id following_id : Nat) :
    FollowResult × DB :=
  match followRepoGetByIds db follower_id following_id with
  | none => (.err "Follow request not found", db)
  | some existing =>
    if !(existing.status_id == 1) then
      (.err "Can only reject pending requests", db)
    else
      match followRepoUpdateStatus db follower_id following_id 3 with
      | (some updated, db2) => (.ok "Follow request rejected" "" updated, db2)
      | (none, db2) => (.exn "AttributeError", db2)

/-- `FollowService.unfollow_user`: row deletion. -/
def unfollowUser (db : DB) (follower_id following_id : Nat) :
    FollowResult × DB :=
  match followRepoGetByIds db follower_id following_id with
  | none => (.err "Not following this user", db)
  | some existing =>
    match followRepoDelete db follower_id following_id with
    | (true, db2) => (.ok "Unfollowed successfully" "" existing, db2)
    | (false, db2) => (.err "Failed to unfollow", db2)

/-! ## Post service (`post_service.py`) -/

/-- `PostService._is_accepted_follower`. -/
def isAcceptedFollower (db : DB) (follower_id following_id : Nat) : Bool :=
  match followRepoGetByIds db follower_id following_id with
  | some f => f.status_id == 2
  | none => false

/-- `PostService.can_view_post`: own post, public author, or accepted
follower. -/
def canViewPost (db : DB) (post : PostRow) (current_user_id : Nat) : Bool :=
  if post.user_id == current_user_id then true
  else
    match userRepoGetById db post.user_id with
    | none => false
    | some post_author =>
      if !post_author.is_private then true
      else isAcceptedFollower db current_user_id post.user_id

/-- `PostService.get_post`: the stats fetch, then the privacy re-check,
which runs only under a truthy `user_id`. -/
def getPost (db : DB) (post_id : Nat) (user_id : Option Nat) :
    Option PostStats :=
  match postRepoGetWithStats db post_id user_id with
  | none => none
  | some post_dict =>
    -- `get_by_id` re-fetches the same row the stats query grouped on
    let post := post_dict.post
    if optNatTruthy user_id && !(canViewPost db post (user_id.getD 0)) then
      none
    else some post_dict

/-- Result dict of `PostService.get_user_posts`: the (paginated) post list,
the total count, and the optional "This account is private" message. -/
structure PostListResult where
  posts : List PostStats
  total : Nat
  message : Option String := none
  deriving Repr, DecidableEq

/-- `PostService.get_user_posts`: under a truthy, non-self
`current_user_id`, a private author with no accepted follow from the viewer
yields the empty denial result; otherwise the paginated listing. -/
def getUserPosts (db : DB) (user_id : Nat) (current_user_id : Option Nat)
    (limit offset : Nat) : PostListResult :=
  let denied : Bool :=
    optNatTruthy current_user_id && !(current_user_id.getD 0 == user_id)
      && (match userRepoGetById db user_id with
          | some post_author =>
            post_author.is_private
              && (match followRepoGetByIds db (current_user_id.getD 0) user_id with
                  | none => true
                  | some follow => !(follow.status_id == 2))
          | none => false)
  if denied then
    { posts := [], total := 0, message := some "This account is private" }
  else
    { posts := postRepoGetByUserIdWithStats db user_id current_user_id limit offset,
      total := postRepoCountByUser db user_id }

/-- `PostService.get_feed`: the feed query over `user_feed_view`, then the
in-service privacy filter (own post, public author, or accepted follow;
posts whose author row is missing are dropped). -/
def getFeed (db : DB) (user_id : Nat) (limit offset : Nat) : List PostStats :=
  (postRepoGetFeedWithStats db user_id limit offset).filter (fun post_dict =>
    match userRepoGetById db post_dict.post.user_id with
    | none => false
    | some post_author =>
      post_dict.post.user_id == user_id
        || !post_author.is_private
        || isAcceptedFollower db user_id post_dict.post.user_id)

/-- Result of `PostService.create_post`: `{"success": False, "errors": es}`
or `{"success": True, "post": stats}`; `exn` marks a propagated database
exception. -/
inductive CreatePostResult where
  | failure : List String → CreatePostResult
  | ok : Option PostStats → CreatePostResult
  | exn : String → CreatePostResult
  deriving Repr, DecidableEq

/-- `PostService.create_post`: entity validation, INSERT, then a stats
re-fetch of the new row. -/
def createPost (db : DB) (user_id : Nat) (content media_url : Option String)
    (community_id : Option Nat) : CreatePostResult × DB :=
  let errors := postValidate content media_url
  if !(errors.isEmpty) then
    (.failure errors, db)
  else
    match postRepoCreate db user_id community_id content media_url with
    | (.ok created, db2) =>
      (.ok (postRepoGetWithStats db2 created.post_id (some user_id)), db2)
    | (.error e, db2) => (.exn e, db2)

/-! ## Comment service (`comment_service.py`) -/

/-- Result dict of the comment-service creation paths:
`{"success": False, "error": e}`, `{"success": False, "errors": es}` or
`{"success": True, "comment": row}`; `exn` marks a propagated database
exception. -/
inductive CreateCommentResult where
  | err : String → CreateCommentResult
  | errs : List String → CreateCommentResult
  | ok : CommentRow → CreateCommentResult
  | exn : String → CreateCommentResult
  deriving Repr, DecidableEq

/-- `CommentService.create_comment`: under a truthy `parent_comment_id` the
parent must exist and belong to the same post; then entity validation and
the INSERT. -/
def createComment (db : DB) (post_id user_id : Nat) (content : Option String)
    (parent_comment_id : Option Nat) : CreateCommentResult × DB :=
  if optNatTruthy parent_comment_id then
    match commentRepoGetById db (parent_comment_id.getD 0) with
    | none => (.err "Parent comment not found", db)
    | some parent_comment =>
      if !(parent_comment.post_id == post_id) then
        (.err "Parent comment does not belong to this post", db)
      else createCommentBody db post_id user_id content parent_comment_id
  else createCommentBody db post_id user_id content parent_comment_id
where
  /-- The validation-and-insert tail of `create_comment`. -/
  createCommentBody (db : DB) (post_id user_id : Nat)
      (content : Option String) (parent_comment_id : Option Nat) :
      CreateCommentResult × DB :=
    let errors := commentValidate content
    if !(errors.isEmpty) then
      (.errs errors, db)
    else
      match commentRepoCreate db post_id user_id (content.getD "")
          parent_comment_id with
      | (.ok created, db2) => (.ok created, db2)
      | (.error e, db2) => (.exn e, db2)

/-- `CommentService.reply_to_comment`: fetches the parent and delegates to
`create_comment` with the inherited `post_id`. -/
def replyToComment (db : DB) (comment_id user_id : Nat)
    (content : Option String) : CreateCommentResult × DB :=
  match commentRepoGetById db comment_id with
  | none => (.err "Parent comment not found", db)
  | some parent_comment =>
    createComment db parent_comment.post_id user_id content (some comment_id)

/-! ## Community service (`community_service.py`) -/

/-- `CommunityService.create_community`: entity validation, then the
repository INSERT (whose schema side atomically adds the creator as admin;
the service itself adds nothing further — see the `pass` under the comment
"Creator is automatically added as admin by the atomic stored
procedure"). -/
def createCommunity (db : DB) (name description : String)
    (creator_id privacy_id : Nat) :
    Except String CommunityRow × DB :=
  let errors := communityValidate (some name)
  if !(errors.isEmpty) then
    (.error (String.intercalate "; " errors), db)
  else communityRepoCreate db name description creator_id privacy_id

/-- `CommunityService.join_community`: a non-member joins with
role_id = 3. -/
def joinCommunity (db : DB) (community_id user_id : Nat) :
    Except String MemberRow × DB :=
  match communityRepoGetById db community_id with
  | none => (.error "Community not found", db)
  | some _ =>
    match communityRepoGetMember db community_id user_id with
    | some _ => (.error "You are already a member of this community", db)
    | none => communityRepoAddMember db community_id user_id 3

/-- `CommunityService.leave_community`: an admin may only leave when the
admin count over the first 1000 membership rows (newest joiners first) is
not exactly one. -/
def leaveCommunity (db : DB) (community_id user_id : Nat) :
    Except String Bool × DB :=
  match communityRepoGetById db community_id with
  | none => (.error "Community not found", db)
  | some _ =>
    match communityRepoGetMember db community_id user_id with
    | none => (.error "You are not a member of this community", db)
    | some member =>
      if member.role_id == 1 then
        let members := communityRepoGetMembers db community_id 1000 0
        let admin_count := (members.filter (fun m => m.role_id == 1)).length
        if admin_count == 1 then
          (.error "You are the only admin. Assign another admin before leaving or delete the community", db)
        else
          let (ok, db2) := communityRepoRemoveMember db community_id user_id
          (.ok ok, db2)
      else
        let (ok, db2) := communityRepoRemoveMember db community_id user_id
        (.ok ok, db2)

/-- `CommunityService.remove_member`: admins and moderators may remove
members; a creator who is admin cannot be removed; moderators cannot
remove admins. -/
def removeMember (db : DB) (community_id user_id target_user_id : Nat) :
    Except String Bool × DB :=
  match communityRepoGetById db community_id with
  | none => (.error "Community not found", db)
  | some community =>
    match communityRepoGetMember db community_id user_id with
    | none => (.error "You are not a member of this community", db)
    | some requester_member =>
      if !(requester_member.role_id == 1 || requester_member.role_id == 2) then
        (.error "Only admins or moderators can remove members", db)
      else
        match communityRepoGetMember db community_id target_user_id with
        | none => (.error "Target user is not a member of this community", db)
        | some target_member =>
          if target_user_id == community.creator_id
              && target_member.role_id == 1 then
            (.error "Cannot remove the community creator who is an admin", db)
          else if requester_member.role_id == 2
              && target_member.role_id == 1 then
            (.error "Moderators cannot remove admins", db)
          else
            let (ok, db2) := communityRepoRemoveMember db community_id target_user_id
            (.ok ok, db2)

/-- `CommunityService.change_member_role`: only admins change roles; the
role of the creator, when the creator is the only admin, cannot be changed
away from admin. -/
def changeMemberRole (db : DB) (community_id user_id target_user_id new_role_id : Nat) :
    Except String (Option MemberRow) × DB :=
  if !(new_role_id == 1 || new_role_id == 2 || new_role_id == 3) then
    (.error "Invalid role_id. Must be 1 (admin), 2 (moderator), or 3 (member)", db)
  else
    match communityRepoGetById db community_id with
    | none => (.error "Community not found", db)
    | some community =>
      match communityRepoGetMember db community_id user_id with
      | none => (.error "You are not a member of this community", db)
      | some requester_member =>
        if !(requester_member.role_id == 1) then
          (.error "Only admins can change member roles", db)
        else
          match communityRepoGetMember db community_id target_user_id with
          | none => (.error "Target user is not a member of this community", db)
          | some target_member =>
            if target_user_id == community.creator_id
                && target_member.role_id == 1
                && ((((communityRepoGetMembers db community_id 1000 0).filter
                      (fun m => m.role_id == 1)).length == 1)
                  && !(new_role_id == 1)) then
              (.error "Cannot change role of the only admin. Assign another admin first", db)
            else
              let (updated, db2) :=
                communityRepoUpdateMemberRole db community_id target_user_id new_role_id
              (.ok updated, db2)

/-! ## User service (`user_service.py`) and registration -/

/-- The `updates` dict passed to `UserService.update_profile`; a `none`
field models an absent key. -/
structure ProfileUpdates where
  username : Option String := none
  email : Option String := none
  password : Option String := none
  bio : Option (Option String) := none
  profile_picture_url : Option (Option String) := none
  is_private : Option Bool := none
  deriving Repr, DecidableEq

/-- Stand-in for `werkzeug.security.generate_password_hash` (external
library; only the fact that some hash string is stored matters here). -/
def generatePasswordHash (password : String) : String :=
  "pbkdf2:" ++ password

/-- `UserService.update_profile`: per-field application with uniqueness
pre-checks, then the repository UPDATE (whose constraint failures raise). -/
def updateProfile (db : DB) (user_id : Nat) (updates : ProfileUpdates) :
    Except String UserRow × DB :=
  match userRepoGetById db user_id with
  | none => (.error "User not found", db)
  | some user0 =>
    match updateUsernameStep db user0 updates with
    | .error e => (.error e, db)
    | .ok user1 =>
      match updateEmailStep db user1 updates with
      | .error e => (.error e, db)
      | .ok user2 =>
        let user3 := { user2 with
          password_hash := match updates.password with
            | some p => generatePasswordHash p
            | none => user2.password_hash,
          bio := updates.bio.getD user2.bio,
          profile_picture_url :=
            updates.profile_picture_url.getD user2.profile_picture_url,
          is_private := updates.is_private.getD user2.is_private }
        userRepoUpdate db user3
where
  /-- The `"username" in updates` branch of `update_profile`. -/
  updateUsernameStep (db : DB) (user : UserRow) (updates : ProfileUpdates) :
      Except String UserRow :=
    match updates.username with
    | some newName =>
      if newName == user.username then .ok user
      else
        match userRepoGetByUsername db newName with
        | some _ => .error "Username already exists"
        | none => .ok { user with username := newName }
    | none => .ok user
  /-- The `"email" in updates` branch of `update_profile`. -/
  updateEmailStep (db : DB) (user : UserRow) (updates : ProfileUpdates) :
      Except String UserRow :=
    match updates.email with
    | some newEmail =>
      if newEmail == user.email then .ok user
      else
        match userRepoGetByEmail db newEmail with
        | some _ => .error "Email already exists"
        | none => .ok { user with email := newEmail }
    | none => .ok user

/-- `UserService.delete_account`: existence check, then the repository
DELETE (with its audit trigger). -/
def deleteAccount (db : DB) (user_id : Nat) : Except String String × DB :=
  match userRepoGetById db user_id with
  | none => (.error "User not found", db)
  | some _ =>
    match userRepoDelete db user_id with
    | (true, db2) => (.ok "Account deleted successfully", db2)
    | (false, db2) => (.error "Failed to delete account", db2)

/-- Modelled from the spec: `AuthService.register` (the file
`auth_service.py` is imported by the controllers and tests but is not in
the source tree).  Spec section 6 `createUser` with section 4.1 contracts:
entity validation of username and email, then the repository INSERT, whose
database constraints reject malformed rows with no partial row
persisted. -/
def authRegister (db : DB) (username email password : String)
    (bio profile_picture_url : Option String) (is_private : Bool) :
    Except String UserRow × DB :=
  let errors := userValidate (some username) (some email)
  if !(errors.isEmpty) then
    (.error (String.intercalate "; " errors), db)
  else
    userRepoCreate db username email (generatePasswordHash password)
      bio profile_picture_url is_private

/-! ## Message service (`message_service.py`) -/

/-- Result dict of `MessageService.send_message`; `exn` marks a propagated
database exception. -/
inductive SendMessageResult where
  | err : String → SendMessageResult
  | ok : MessageRow → SendMessageResult
  | exn : String → SendMessageResult
  deriving Repr, DecidableEq

/-- `MessageService.send_message`: no self-messages, the receiver must
exist, entity validation (first error only), then the INSERT. -/
def sendMessage (db : DB) (sender_id receiver_id : Nat)
    (content media_url : Option String) : SendMessageResult × DB :=
  if sender_id == receiver_id then
    (.err "Cannot send message to yourself", db)
  else
    match userRepoGetById db receiver_id with
    | none => (.err "Receiver not found", db)
    | some _ =>
      let errors := messageValidate content media_url
      if !(errors.isEmpty) then
        (.err (errors.headD ""), db)
      else
        match messageRepoCreate db sender_id receiver_id content media_url false with
        | (.ok created, db2) => (.ok created, db2)
        | (.error e, db2) => (.exn e, db2)

/-! ## State predicates and concrete stores used by the theorems -/

/-- Every persisted user email satisfies the schema email constraint. -/
def EmailsWellformed (db : DB) : Prop :=
  ∀ u ∈ db.users, emailWellformed u.email = true

/-- Every persisted comment with a parent belongs to the same post as that
parent. -/
def ParentConsistent (db : DB) : Prop :=
  ∀ c ∈ db.comments, ∀ p, c.parent_comment_id = some p →
    ∃ q ∈ db.comments, q.comment_id = p ∧ q.post_id = c.post_id

/-- Concrete store for exercising the follow state machine: a public and a
private account, a rejected request 3 → 1 and a pending request 3 → 2. -/
def followDB : DB :=
  { users := [
      { user_id := 1, username := "alice", email := "a@b", password_hash := "h" },
      { user_id := 2, username := "bob", email := "b@b", password_hash := "h", is_private := true },
      { user_id := 3, username := "carol", email := "c@b", password_hash := "h" },
      { user_id := 4, username := "dave", email := "d@b", password_hash := "h" } ],
    follows := [
      { follower_id := 3, following_id := 1, status_id := 3 },
      { follower_id := 3, following_id := 2, status_id := 1 } ],
    nextId := 5 }

/-- Concrete store with two users: a public author (id 1) owning post 10,
and an unrelated viewer (id 2); no follow rows. -/
def contentDB : DB :=
  { users := [
      { user_id := 1, username := "alice", email := "a@b", password_hash := "h" },
      { user_id := 2, username := "bob", email := "b@b", password_hash := "h" } ],
    posts := [
      { post_id := 10, user_id := 1, content := some "hi", created_at := 1 } ],
    nextId := 11 }

/-- Concrete store with a private author (id 1) owning post 10 and comment
20 on that post, and an unrelated viewer (id 2); no follow rows. -/
def privateDB : DB :=
  { users := [
      { user_id := 1, username := "alice", email := "a@b", password_hash := "h", is_private := true },
      { user_id := 2, username := "bob", email := "b@b", password_hash := "h" } ],
    posts := [
      { post_id := 10, user_id := 1, content := some "hi", created_at := 1 } ],
    comments := [
      { comment_id := 20, post_id := 10, user_id := 1, content := "root" } ],
    nextId := 21 }

/-- Concrete store whose community 1 (created by user 1) has a single
member: user 2, an admin who is not the creator. -/
def soleAdminDB : DB :=
  { users := [
      { user_id := 1, username := "alice", email := "a@b", password_hash := "h" },
      { user_id := 2, username := "bob", email := "b@b", password_hash := "h" } ],
    communities := [
      { community_id := 1, name := "Comm", description := "d", creator_id := 1, privacy_id := 1 } ],
    members := [
      { community_id := 1, user_id := 2, role_id := 1, joined_at := 5 } ],
    nextId := 10 }

/-- Concrete store whose community 1 has its creator (user 1) as sole
admin, plus a plain member (user 2). -/
def creatorAdminDB : DB :=
  { users := [
      { user_id := 1, username := "alice", email := "a@b", password_hash := "h" },
      { user_id := 2, username := "bob", email := "b@b", password_hash := "h" } ],
    communities := [
      { community_id := 1, name := "Comm", description := "d", creator_id := 1, privacy_id := 1 } ],
    members := [
      { community_id := 1, user_id := 1, role_id := 1, joined_at := 4 },
      { community_id := 1, user_id := 2, role_id := 3, joined_at := 5 } ],
    nextId := 10 }

/-- A 5001-character post body, one character over the entity limit. -/
def longContent : String := String.mk (List.replicate 5001 'a')

/-- The row inserted by a content/media post creation. -/
def newPostRow (db : DB) (uid : Nat) (c m : Option String) : PostRow :=
  { post_id := db.nextId, user_id := uid, community_id := none,
    content := c, media_url := m, created_at := db.nextId }

/-- The row inserted by a direct-message send. -/
def newMessageRow (db : DB) (s r : Nat) (c m : Option String) : MessageRow :=
  { message_id := db.nextId, sender_id := s, receiver_id := r,
    content := c, media_url := m, is_read := false }

/-! ## Helper lemmas -/

/-- The stats row carries the post row it was computed for. -/
lemma statsFor_post (db : DB) (v : Option Nat) (p : PostRow) :
    (statsFor db v p).post = p := rfl

/-- A key-preserving update leaves `find?` pointing at the updated row. -/
lemma find?_map_update {α : Type} (p : α → Bool) (f : α → α)
    (hf : ∀ g, p (f g) = p g) :
    ∀ (l : List α) (ex : α), l.find? p = some ex →
      (l.map (fun g => if p g then f g else g)).find? p = some (f ex) := by
  intro l
  induction l with
  | nil => intro ex h; simp [List.find?] at h
  | cons a t ih =>
    intro ex h
    by_cases ha : p a = true
    · have hpf : p (f a) = true := by rw [hf]; exact ha
      rw [List.find?_cons, ha] at h
      simp only [Option.some.injEq] at h
      subst h
      simp only [List.map_cons, List.find?_cons, if_pos ha, hpf]
    · have ha2 : p a = false := by simpa using ha
      rw [List.find?_cons, ha2] at h
      simp only [List.map_cons, List.find?_cons, if_neg ha]
      rw [ha2]
      exact ih ex h

/-- A nonempty string is truthy (`s == ""` is false). -/
lemma beq_empty_false_of_pyLen_pos {s : String} (h : 0 < pyLen s) :
    (s == "") = false := by
  rw [beq_eq_false_iff_ne]
  intro he
  subst he
  simp [pyLen] at h

/-- The admin count that `leave_community` and `change_member_role` compute
over the first 1000 membership rows equals the admin count over the whole
membership join whenever the community has at most 1000 joined rows. -/
lemma getMembers_1000_admin_count (db : DB) (cid : Nat)
    (hlen : (memberJoinRows db cid).length ≤ 1000) :
    ((communityRepoGetMembers db cid 1000 0).filter
        (fun m => m.role_id == 1)).length
      = ((memberJoinRows db cid).filter (fun m => m.role_id == 1)).length := by
  unfold communityRepoGetMembers
  have hperm := List.mergeSort_perm (memberJoinRows db cid)
    (fun a b => decide (b.joined_at ≤ a.joined_at))
  rw [List.drop_zero, List.take_of_length_le (by rw [hperm.length_eq]; exact hlen)]
  exact (hperm.filter (fun m => m.role_id == 1)).length_eq

/-! ## C1 -/

/-- C1: for every creator with a user row and every valid, unused community
name, `CommunityService.create_community` produces in one atomic step both
the Community row and the creator-admin CommunityMember row; and in every
execution, any community row that is new in the post-state has an admin
membership row for the creator alongside it — no state contains the new
community without its admin membership. -/
theorem C1_create_community_with_admin :
    (∀ (db : DB) (name description : String) (creator_id privacy_id : Nat),
      3 ≤ pyLen name → pyLen name ≤ 100 →
      (∀ c ∈ db.communities, c.name ≠ name) →
      (∃ u ∈ db.users, u.user_id = creator_id) →
      createCommunity db name description creator_id privacy_id =
        (.ok { community_id := db.nextId, name := name,
               description := description, creator_id := creator_id,
               privacy_id := privacy_id, created_at := db.nextId },
         { db with
           communities := db.communities ++
             [{ community_id := db.nextId, name := name,
                description := description, creator_id := creator_id,
                privacy_id := privacy_id, created_at := db.nextId }],
           members := db.members ++
             [{ community_id := db.nextId, user_id := creator_id,
                role_id := 1, joined_at := db.nextId }],
           nextId := db.nextId + 1 }))
    ∧ (∀ (db : DB) (name description : String) (creator_id privacy_id : Nat)
        (c : CommunityRow),
        c ∈ (createCommunity db name description creator_id privacy_id).2.communities →
        c ∉ db.communities →
        ∃ m ∈ (createCommunity db name description creator_id privacy_id).2.members,
          m.community_id = c.community_id ∧ m.user_id = creator_id ∧
            m.role_id = 1) := by
  constructor
  · intro db name description creator_id privacy_id h3 h100 hfresh hcreator
    have hne : (name == "") = false :=
      beq_empty_false_of_pyLen_pos (by omega)
    have hval : communityValidate (some name) = [] := by
      simp [communityValidate, optStrTruthy, hne]
      omega
    have hany : db.communities.any (fun c => c.name == name) = false := by
      rw [Bool.eq_false_iff]
      intro hcontra
      obtain ⟨c, hc, hcn⟩ := List.any_eq_true.mp hcontra
      exact hfresh c hc (by simpa using hcn)
    have husr : db.users.any (fun u => u.user_id == creator_id) = true := by
      obtain ⟨u, hu, hue⟩ := hcreator
      exact List.any_eq_true.mpr ⟨u, hu, by simpa using hue⟩
    simp [createCommunity, hval, communityRepoCreate, hany, husr]
  · intro db name description creator_id privacy_id c hc hnotold
    by_cases hval : (communityValidate (some name)).isEmpty = true
    · by_cases hguard : (db.communities.any (fun c => c.name == name)
          || !(db.users.any (fun u => u.user_id == creator_id))) = true
      · exfalso
        apply hnotold
        simpa [createCommunity, hval, communityRepoCreate, hguard] using hc
      · have hguard2 := Bool.eq_false_iff.mpr hguard
        rw [show (createCommunity db name description creator_id privacy_id)
            = (.ok { community_id := db.nextId, name := name,
                     description := description, creator_id := creator_id,
                     privacy_id := privacy_id, created_at := db.nextId },
               { db with
                 communities := db.communities ++
                   [{ community_id := db.nextId, name := name,
                      description := description, creator_id := creator_id,
                      privacy_id := privacy_id, created_at := db.nextId }],
                 members := db.members ++
                   [{ community_id := db.nextId, user_id := creator_id,
                      role_id := 1, joined_at := db.nextId }],
                 nextId := db.nextId + 1 }) from by
            simp [createCommunity, hval, communityRepoCreate, hguard2]] at hc ⊢
        simp only [List.mem_append] at hc
        rcases hc with hc | hc
        · exact absurd hc hnotold
        · refine ⟨{ community_id := db.nextId, user_id := creator_id, role_id := 1, joined_at := db.nextId }, ?_, ?_⟩
          · simp
          · simp at hc
            subst hc
            simp
    · exfalso
      apply hnotold
      simpa [createCommunity, hval] using hc

/-- A concrete run of C1: a valid creation on a small store yields the
community and its creator-admin membership together. -/
theorem C1_create_community_with_admin_witness :
    createCommunity
      { users := [{ user_id := 1, username := "alice", email := "a@b",
                    password_hash := "h" }], nextId := 2 }
      "Atomic Comm" "Desc" 1 1 =
      (.ok { community_id := 2, name := "Atomic Comm", description := "Desc",
             creator_id := 1, privacy_id := 1, created_at := 2 },
       { users := [{ user_id := 1, username := "alice", email := "a@b", password_hash := "h" }],
         communities := [{ community_id := 2, name := "Atomic Comm", description := "Desc", creator_id := 1, privacy_id := 1, created_at := 2 }],
         members := [{ community_id := 2, user_id := 1, role_id := 1, joined_at := 2 }],
         nextId := 3 }) :=
  C1_create_community_with_admin.1
    { users := [{ user_id := 1, username := "alice", email := "a@b",
                  password_hash := "h" }], nextId := 2 }
    "Atomic Comm" "Desc" 1 1 (by decide) (by decide) (by decide)
    ⟨{ user_id := 1, username := "alice", email := "a@b",
       password_hash := "h" }, by decide, rfl⟩

/-! ## C3 -/

/-- C3: the follow operations implement the Follow.status state machine.
Self-follows fail with no row written; a fresh follow of a public target
creates an accepted row and of a private target a pending row; an existing
pending or accepted row makes `follow_user` fail, while a rejected row
transitions back to pending; `accept_follow_request` and
`reject_follow_request` succeed only from pending (accepted is terminal,
rejected cannot be accepted), leaving the store unchanged otherwise. -/
theorem C3_follow_status_state_machine :
    (∀ (db : DB) (f : Nat), followUser db f f = (.err "Cannot follow yourself", db))
    ∧ (∀ (db : DB) (f t : Nat) (tu : UserRow),
        f ≠ t → userRepoGetById db t = some tu → tu.is_private = false →
        (∃ u ∈ db.users, u.user_id = f) →
        followRepoGetByIds db f t = none →
        followUser db f t =
          (.ok "Now following" "accepted"
            { follower_id := f, following_id := t, status_id := 2 },
           { db with follows := db.follows ++
              [{ follower_id := f, following_id := t, status_id := 2 }] }))
    ∧ (∀ (db : DB) (f t : Nat) (tu : UserRow),
        f ≠ t → userRepoGetById db t = some tu → tu.is_private = true →
        (∃ u ∈ db.users, u.user_id = f) →
        followRepoGetByIds db f t = none →
        followUser db f t =
          (.ok "Follow request sent" "pending"
            { follower_id := f, following_id := t, status_id := 1 },
           { db with follows := db.follows ++
              [{ follower_id := f, following_id := t, status_id := 1 }] }))
    ∧ (∀ (db : DB) (f t : Nat) (tu : UserRow) (ex : FollowRow),
        f ≠ t → userRepoGetById db t = some tu →
        followRepoGetByIds db f t = some ex →
        (ex.status_id = 1 →
          followUser db f t = (.err "Follow request already pending", db))
        ∧ (ex.status_id = 2 →
          followUser db f t = (.err "Already following this user", db))
        ∧ (ex.status_id = 3 →
          followUser db f t =
            (.ok "Follow request sent" "pending" { ex with status_id := 1 },
             { db with follows := db.follows.map (fun g =>
                if g.follower_id == f && g.following_id == t then
                  { g with status_id := 1 }
                else g) })))
    ∧ (∀ (db : DB) (f t : Nat) (ex : FollowRow),
        followRepoGetByIds db f t = some ex →
        (ex.status_id = 1 →
          acceptFollowRequest db f t =
            (.ok "Follow request accepted" "" { ex with status_id := 2 },
             { db with follows := db.follows.map (fun g =>
                if g.follower_id == f && g.following_id == t then
                  { g with status_id := 2 }
                else g) }))
        ∧ (ex.status_id = 2 →
          acceptFollowRequest db f t =
            (.err "Follow request already accepted", db))
        ∧ (ex.status_id = 3 →
          acceptFollowRequest db f t =
            (.err "Invalid follow request status", db)))
    ∧ (∀ (db : DB) (f t : Nat) (ex : FollowRow),
        followRepoGetByIds db f t = some ex →
        (ex.status_id = 1 →
          rejectFollowRequest db f t =
            (.ok "Follow request rejected" "" { ex with status_id := 3 },
             { db with follows := db.follows.map (fun g =>
                if g.follower_id == f && g.following_id == t then
                  { g with status_id := 3 }
                else g) }))
        ∧ (ex.status_id ≠ 1 →
          rejectFollowRequest db f t =
            (.err "Can only reject pending requests", db))) := by
  have hupd : ∀ (db : DB) (f t s : Nat) (ex : FollowRow),
      followRepoGetByIds db f t = some ex →
      followRepoUpdateStatus db f t s =
        (some { ex with status_id := s },
         { db with follows := db.follows.map (fun g =>
            if g.follower_id == f && g.following_id == t then
              { g with status_id := s }
            else g) }) := by
    intro db f t s ex hex
    have hex2 : db.follows.find? (fun g => g.follower_id == f && g.following_id == t) = some ex := hex
    have hm := find?_map_update (fun g => g.follower_id == f && g.following_id == t)
      (fun g => { g with status_id := s }) (fun g => rfl) db.follows ex hex2
    simp only [followRepoUpdateStatus]
    rw [hm]
  have hfresh : ∀ (db : DB) (f t : Nat) (tu : UserRow),
      f ≠ t → userRepoGetById db t = some tu →
      (∃ u ∈ db.users, u.user_id = f) →
      followRepoGetByIds db f t = none →
      ∀ (s : Nat), s = (if tu.is_private then 1 else 2) →
      followRepoCreate db { follower_id := f, following_id := t, status_id := s } =
        (.ok { follower_id := f, following_id := t, status_id := s },
         { db with follows := db.follows ++
            [{ follower_id := f, following_id := t, status_id := s }] }) := by
    intro db f t tu hft ht hf hnone s hs
    have hdup : db.follows.any (fun g => g.follower_id == f && g.following_id == t) = false := by
      rw [Bool.eq_false_iff]
      intro hcon
      obtain ⟨g, hg, hgp⟩ := List.any_eq_true.mp hcon
      exact absurd hgp (by simpa using List.find?_eq_none.mp hnone g hg)
    have huf : db.users.any (fun u => u.user_id == f) = true := by
      obtain ⟨u, hu, hue⟩ := hf
      exact List.any_eq_true.mpr ⟨u, hu, by simpa using hue⟩
    have ht2 : db.users.find? (fun u => u.user_id == t) = some tu := ht
    have hut : db.users.any (fun u => u.user_id == t) = true := by
      refine List.any_eq_true.mpr ⟨tu, List.mem_of_find?_eq_some ht2, ?_⟩
      exact @List.find?_some UserRow (fun u => u.user_id == t) tu db.users ht2
    have hst : (s == 1 || s == 2 || s == 3) = true := by
      by_cases hp : tu.is_private = true
      · rw [hp] at hs
        simp only [if_true] at hs
        simp [hs]
      · have hp2 : tu.is_private = false := by simpa using hp
        rw [hp2] at hs
        simp only [Bool.false_eq_true, if_false] at hs
        simp [hs]
    simp [followRepoCreate, hdup, huf, hut, hst]
  refine ⟨?_, ?_, ?_, ?_, ?_, ?_⟩
  · intro db f
    simp [followUser]
  · intro db f t tu hft ht htpub hf hnone
    have hfneq : (f == t) = false := by simpa using hft
    have hins := hfresh db f t tu hft ht hf hnone 2 (by rw [htpub]; rfl)
    simp [followUser, hfneq, ht, hnone, followUser.followUserInsert, htpub, hins]
  · intro db f t tu hft ht htpriv hf hnone
    have hfneq : (f == t) = false := by simpa using hft
    have hins := hfresh db f t tu hft ht hf hnone 1 (by rw [htpriv]; rfl)
    simp [followUser, hfneq, ht, hnone, followUser.followUserInsert, htpriv, hins]
  · intro db f t tu ex hft ht hex
    have hfneq : (f == t) = false := by simpa using hft
    refine ⟨?_, ?_, ?_⟩
    · intro h1
      simp [followUser, hfneq, ht, hex, h1]
    · intro h2
      simp [followUser, hfneq, ht, hex, h2]
    · intro h3
      simp [followUser, hfneq, ht, hex, h3, hupd db f t 1 ex hex]
  · intro db f t ex hex
    refine ⟨?_, ?_, ?_⟩
    · intro h1
      simp [acceptFollowRequest, hex, h1, hupd db f t 2 ex hex]
    · intro h2
      simp [acceptFollowRequest, hex, h2]
    · intro h3
      simp [acceptFollowRequest, hex, h3]
  · intro db f t ex hex
    refine ⟨?_, ?_⟩
    · intro h1
      simp [rejectFollowRequest, hex, h1, hupd db f t 3 ex hex]
    · intro h1
      have hne : (ex.status_id == 1) = false := by simpa using h1
      simp [rejectFollowRequest, hex, hne]

/-- Concrete runs of C3: self-follow rejection, auto-accept on a public
target, pending on a private target, rejected-to-pending re-request, and
acceptance of a pending request. -/
theorem C3_follow_status_state_machine_witness :
    followUser followDB 4 4 = (.err "Cannot follow yourself", followDB)
    ∧ followUser followDB 4 1 =
        (.ok "Now following" "accepted" ⟨4, 1, 2⟩,
         { followDB with follows := [⟨3, 1, 3⟩, ⟨3, 2, 1⟩, ⟨4, 1, 2⟩] })
    ∧ followUser followDB 4 2 =
        (.ok "Follow request sent" "pending" ⟨4, 2, 1⟩,
         { followDB with follows := [⟨3, 1, 3⟩, ⟨3, 2, 1⟩, ⟨4, 2, 1⟩] })
    ∧ followUser followDB 3 1 =
        (.ok "Follow request sent" "pending" ⟨3, 1, 1⟩,
         { followDB with follows := [⟨3, 1, 1⟩, ⟨3, 2, 1⟩] })
    ∧ acceptFollowRequest followDB 3 2 =
        (.ok "Follow request accepted" "" ⟨3, 2, 2⟩,
         { followDB with follows := [⟨3, 1, 3⟩, ⟨3, 2, 2⟩] }) :=
  ⟨C3_follow_status_state_machine.1 followDB 4,
   C3_follow_status_state_machine.2.1 followDB 4 1
     { user_id := 1, username := "alice", email := "a@b", password_hash := "h" }
     (by decide) rfl rfl
     ⟨{ user_id := 4, username := "dave", email := "d@b", password_hash := "h" },
      by decide, rfl⟩ rfl,
   C3_follow_status_state_machine.2.2.1 followDB 4 2
     { user_id := 2, username := "bob", email := "b@b", password_hash := "h", is_private := true }
     (by decide) rfl rfl
     ⟨{ user_id := 4, username := "dave", email := "d@b", password_hash := "h" },
      by decide, rfl⟩ rfl,
   (C3_follow_status_state_machine.2.2.2.1 followDB 3 1
     { user_id := 1, username := "alice", email := "a@b", password_hash := "h" }
     ⟨3, 1, 3⟩ (by decide) rfl rfl).2.2 rfl,
   (C3_follow_status_state_machine.2.2.2.2.1 followDB 3 2
     ⟨3, 2, 1⟩ rfl).1 rfl⟩

/-! ## C5 -/

/-- An UPDATE carrying a malformed email is rejected by the schema
constraint and rolled back. -/
lemma userRepoUpdate_bad_email (db : DB) (u : UserRow)
    (h : emailWellformed u.email = false) :
    userRepoUpdate db u = (.error "Username or email already exists", db) := by
  simp [userRepoUpdate, h]

/-- `userRepoCreate` preserves the email invariant. -/
lemma emailsWF_userRepoCreate (db : DB) (username email ph : String)
    (bio ppu : Option String) (priv : Bool) (h : EmailsWellformed db) :
    EmailsWellformed (userRepoCreate db username email ph bio ppu priv).2 := by
  by_cases hw : emailWellformed email = true
  · by_cases hg : (db.users.any (fun u => u.username == username || u.email == email)) = true
    · simpa [userRepoCreate, hg] using h
    · have hg2 := Bool.eq_false_iff.mpr hg
      have hres : (userRepoCreate db username email ph bio ppu priv).2 =
          { db with users := db.users ++ [{ user_id := db.nextId, username := username, email := email, password_hash := ph, bio := bio, profile_picture_url := ppu, is_private := priv }], nextId := db.nextId + 1 } := by
        simp [userRepoCreate, hg2, hw]
      intro v hv
      rw [hres] at hv
      rcases List.mem_append.mp hv with hold | hnew
      · exact h v hold
      · have hveq : v = { user_id := db.nextId, username := username, email := email, password_hash := ph, bio := bio, profile_picture_url := ppu, is_private := priv } := by
          simpa using hnew
        rw [hveq]
        exact hw
  · have hw2 : emailWellformed email = false := by simpa using hw
    simpa [userRepoCreate, hw2] using h

/-- `userRepoUpdate` preserves the email invariant. -/
lemma emailsWF_userRepoUpdate (db : DB) (u : UserRow)
    (h : EmailsWellformed db) : EmailsWellformed (userRepoUpdate db u).2 := by
  by_cases hw : emailWellformed u.email = true
  · unfold userRepoUpdate
    by_cases hg : (db.users.any (fun v => !(v.user_id == u.user_id)
        && (v.username == u.username || v.email == u.email))) = true
    · simp only [hg, Bool.true_or, if_true]
      exact h
    · have hg2 := Bool.eq_false_iff.mpr hg
      have hcond : (db.users.any (fun v => !(v.user_id == u.user_id)
          && (v.username == u.username || v.email == u.email))
          || !(emailWellformed u.email)) = false := by
        rw [hg2, hw]
        rfl
      rw [if_neg (by rw [hcond]; exact Bool.false_ne_true)]
      intro v hv
      have hv2 : v ∈ db.users.map (fun w =>
        if w.user_id == u.user_id then u else w) := hv
      obtain ⟨w, hw2, hwe⟩ := List.mem_map.mp hv2
      by_cases hid : (w.user_id == u.user_id) = true
      · rw [if_pos hid] at hwe
        rw [← hwe]
        exact hw
      · rw [if_neg hid] at hwe
        rw [← hwe]
        exact h w hw2
  · have hw2 : emailWellformed u.email = false := by simpa using hw
    rw [userRepoUpdate_bad_email db u hw2]
    exact h

/-- The possible outcomes of `update_profile` at the state level: either
the store is untouched, or the repository UPDATE ran. -/
lemma updateProfile_cases (db : DB) (uid : Nat) (updates : ProfileUpdates) :
    (updateProfile db uid updates).2 = db ∨
    ∃ u3, updateProfile db uid updates = userRepoUpdate db u3 := by
  cases huser : userRepoGetById db uid with
  | none => left; simp [updateProfile, huser]
  | some user0 =>
    cases hstep : updateProfile.updateUsernameStep db user0 updates with
    | error msg => left; simp [updateProfile, huser, hstep]
    | ok user1 =>
      cases hstep2 : updateProfile.updateEmailStep db user1 updates with
      | error msg => left; simp [updateProfile, huser, hstep, hstep2]
      | ok user2 =>
        right
        exact ⟨{ user2 with password_hash := match updates.password with | some p => generatePasswordHash p | none => user2.password_hash, bio := updates.bio.getD user2.bio, profile_picture_url := updates.profile_picture_url.getD user2.profile_picture_url, is_private := updates.is_private.getD user2.is_private }, by simp [updateProfile, huser, hstep, hstep2]⟩

/-- The email carried by a successful `update_profile` email step is the
requested one. -/
lemma updateEmailStep_email (db : DB) (user1 : UserRow)
    (updates : ProfileUpdates) (e : String) (he : updates.email = some e) :
    ∀ u2, updateProfile.updateEmailStep db user1 updates = .ok u2 →
      u2.email = e := by
  intro u2 h2
  rw [updateProfile.updateEmailStep, he] at h2
  dsimp only at h2
  by_cases heq : (e == user1.email) = true
  · rw [if_pos heq] at h2
    simp only [Except.ok.injEq] at h2
    rw [← h2]
    exact (beq_iff_eq.mp heq).symm
  · rw [if_neg heq] at h2
    cases hmail : userRepoGetByEmail db e with
    | some w => rw [hmail] at h2; simp at h2
    | none =>
      rw [hmail] at h2
      simp only [Except.ok.injEq] at h2
      rw [← h2]

/-- C5: on both User write paths — registration and profile update — an
email that does not consist of exactly one "@" between a non-empty local
part and a non-empty domain part is rejected with the store unchanged, and
both paths preserve the invariant that every persisted user email is
wellformed (so no User row with such an email is ever persisted). -/
theorem C5_email_shape_rejected :
    (∀ (db : DB) (username email password : String) (bio ppu : Option String)
        (priv : Bool),
      emailWellformed email = false →
      ∃ msg, authRegister db username email password bio ppu priv =
        (.error msg, db))
    ∧ (∀ (db : DB) (uid : Nat) (updates : ProfileUpdates) (e : String),
      updates.email = some e → emailWellformed e = false →
      ∃ msg, updateProfile db uid updates = (.error msg, db))
    ∧ (∀ (db : DB) (username email password : String) (bio ppu : Option String)
        (priv : Bool),
      EmailsWellformed db →
      EmailsWellformed (authRegister db username email password bio ppu priv).2)
    ∧ (∀ (db : DB) (uid : Nat) (updates : ProfileUpdates),
      EmailsWellformed db →
      EmailsWellformed (updateProfile db uid updates).2) := by
  refine ⟨?_, ?_, ?_, ?_⟩
  · intro db username email password bio ppu priv hbad
    by_cases hv : (userValidate (some username) (some email)).isEmpty = true
    · exact ⟨"Username or email already exists",
        by simp [authRegister, hv, userRepoCreate, hbad]⟩
    · exact ⟨String.intercalate "; " (userValidate (some username) (some email)),
        by simp [authRegister, hv]⟩
  · intro db uid updates e he hbad
    cases huser : userRepoGetById db uid with
    | none => exact ⟨"User not found", by simp [updateProfile, huser]⟩
    | some user0 =>
      cases hstep : updateProfile.updateUsernameStep db user0 updates with
      | error msg => exact ⟨msg, by simp [updateProfile, huser, hstep]⟩
      | ok user1 =>
        cases hstep2 : updateProfile.updateEmailStep db user1 updates with
        | error msg => exact ⟨msg, by simp [updateProfile, huser, hstep, hstep2]⟩
        | ok user2 =>
          have he2 : user2.email = e :=
            updateEmailStep_email db user1 updates e he user2 hstep2
          refine ⟨"Username or email already exists", ?_⟩
          simp [updateProfile, huser, hstep, hstep2, userRepoUpdate, he2, hbad]
  · intro db username email password bio ppu priv h
    by_cases hv : (userValidate (some username) (some email)).isEmpty = true
    · have hc := emailsWF_userRepoCreate db username email
        (generatePasswordHash password) bio ppu priv h
      simpa [authRegister, hv] using hc
    · simpa [authRegister, hv] using h
  · intro db uid updates h
    rcases updateProfile_cases db uid updates with hcase | ⟨u3, hcase⟩
    · rw [EmailsWellformed, hcase]
      exact h
    · rw [hcase]
      exact emailsWF_userRepoUpdate db u3 h

/-- Concrete runs of C5: registering or updating to `noat.com` (no "@") or
`user@` (empty domain) fails with the store unchanged. -/
theorem C5_email_shape_rejected_witness :
    (∃ msg, authRegister contentDB "carl" "noat.com" "pw" none none false =
      (.error msg, contentDB))
    ∧ (∃ msg, authRegister contentDB "carl" "user@" "pw" none none false =
      (.error msg, contentDB))
    ∧ (∃ msg, updateProfile contentDB 1 { email := some "noat.com" } =
      (.error msg, contentDB))
    ∧ (∃ msg, updateProfile contentDB 1 { email := some "user@" } =
      (.error msg, contentDB)) :=
  ⟨C5_email_shape_rejected.1 contentDB "carl" "noat.com" "pw" none none false
     (by decide),
   C5_email_shape_rejected.1 contentDB "carl" "user@" "pw" none none false
     (by decide),
   C5_email_shape_rejected.2.1 contentDB 1 { email := some "noat.com" }
     "noat.com" rfl (by decide),
   C5_email_shape_rejected.2.1 contentDB 1 { email := some "user@" }
     "user@" rfl (by decide)⟩

/-! ## C6 -/

/-- C6: deleting an existing user removes the row and, in the same atomic
step, appends exactly one AuditLog row carrying table name "Users",
operation "DELETE", the username, the email and the full row snapshot; and
in every execution either the user list and the audit log are both
untouched, or the user is gone and exactly one such audit row was
appended — never one without the other. -/
theorem C6_audit_on_user_delete :
    (∀ (db : DB) (uid : Nat) (u : UserRow),
      userRepoGetById db uid = some u →
      deleteAccount db uid =
        (.ok "Account deleted successfully",
         { db with
           users := db.users.filter (fun v => !(v.user_id == uid)),
           posts := db.posts.filter (fun p => !(p.user_id == uid)),
           comments := db.comments.filter (fun c => !(c.user_id == uid)
             && !((db.posts.filter (fun p => p.user_id == uid)).any
                  (fun p => p.post_id == c.post_id))),
           likes := db.likes.filter (fun l => !(l.user_id == uid)
             && !((db.posts.filter (fun p => p.user_id == uid)).any
                  (fun p => p.post_id == l.post_id))),
           follows := db.follows.filter (fun f =>
             !(f.follower_id == uid) && !(f.following_id == uid)),
           messages := db.messages.filter (fun m =>
             !(m.sender_id == uid) && !(m.receiver_id == uid)),
           members := db.members.filter (fun m => !(m.user_id == uid)),
           audit := db.audit ++ [{ table_name := "Users", operation := "DELETE", username := u.username, email := u.email, snapshot := u }] }))
    ∧ (∀ (db : DB) (uid : Nat),
      ((deleteAccount db uid).2 = db ∧ (deleteAccount db uid).2.audit = db.audit)
      ∨ (∃ u, userRepoGetById db uid = some u
          ∧ (deleteAccount db uid).2.audit = db.audit ++
              [{ table_name := "Users", operation := "DELETE", username := u.username, email := u.email, snapshot := u }]
          ∧ (∀ v ∈ (deleteAccount db uid).2.users, v.user_id ≠ uid))) := by
  constructor
  · intro db uid u huser
    have huser2 : db.users.find? (fun v => v.user_id == uid) = some u := huser
    simp [deleteAccount, userRepoDelete, huser, huser2]
  · intro db uid
    cases huser : userRepoGetById db uid with
    | none =>
      have huser2 : db.users.find? (fun v => v.user_id == uid) = none := huser
      left
      constructor
      · simp [deleteAccount, huser]
      · simp [deleteAccount, huser]
    | some u =>
      have huser2 : db.users.find? (fun v => v.user_id == uid) = some u := huser
      right
      refine ⟨u, rfl, ?_, ?_⟩
      · simp [deleteAccount, userRepoDelete, huser, huser2]
      · intro v hv
        have hv2 : v ∈ db.users.filter (fun w => !(w.user_id == uid)) := by
          simpa [deleteAccount, userRepoDelete, huser, huser2] using hv
        have hp := (List.mem_filter.mp hv2).2
        simpa using hp

/-- A concrete run of C6: deleting user 2 produces the post-state with the
single matching audit row appended. -/
theorem C6_audit_on_user_delete_witness :
    deleteAccount contentDB 2 =
      (.ok "Account deleted successfully",
       { contentDB with
         users := [{ user_id := 1, username := "alice", email := "a@b", password_hash := "h" }],
         audit := [{ table_name := "Users", operation := "DELETE", username := "bob", email := "b@b", snapshot := { user_id := 2, username := "bob", email := "b@b", password_hash := "h" } }] }) :=
  C6_audit_on_user_delete.1 contentDB 2
    { user_id := 2, username := "bob", email := "b@b", password_hash := "h" } rfl

/-! ## C7 -/

/-- C7 counterexample: the claim "if content alone is non-empty it
succeeds" fails at a 5001-character body — the content is non-empty and
media is absent, yet the creation is rejected by the 5000-character entity
limit and nothing is persisted. -/
theorem C7_counterexample_long_content :
    ¬(longContent = "")
    ∧ createPost contentDB 1 (some longContent) none none =
        (.failure ["Content must be at most 5000 characters"], contentDB) := by
  have hlen : pyLen longContent = 5001 := by
    have hdata : longContent.data = List.replicate 5001 'a' := rfl
    show longContent.data.length = 5001
    rw [hdata, List.length_replicate]
  have hne : (longContent == "") = false :=
    beq_empty_false_of_pyLen_pos (by omega)
  constructor
  · intro h
    rw [h] at hlen
    simp [pyLen] at hlen
  · simp [createPost, postValidate, optStrTruthy, hne, hlen]

/-- C7 as amended: a Post or Message creation with both content and media
empty/None fails with a validation error and persists nothing; content
alone succeeds provided it is within the 5000-character entity limit, and
media alone succeeds (given an existing author, respectively an existing,
distinct receiver and existing sender). -/
theorem C7_content_or_media_required :
    (∀ (db : DB) (uid : Nat) (c m : Option String) (cid : Option Nat),
      optStrTruthy c = false → optStrTruthy m = false →
      createPost db uid c m cid =
        (.failure ["Post must have content or media"], db))
    ∧ (∀ (db : DB) (uid : Nat) (c : Option String),
      optStrTruthy c = true → pyLen (c.getD "") ≤ 5000 →
      (∃ u ∈ db.users, u.user_id = uid) →
      (∀ p ∈ db.posts, p.post_id ≠ db.nextId) →
      ∃ st, createPost db uid c none none =
          (.ok (some st),
           { db with
             posts := db.posts ++ [newPostRow db uid c none],
             nextId := db.nextId + 1 })
        ∧ st.post = newPostRow db uid c none)
    ∧ (∀ (db : DB) (uid : Nat) (c m : Option String),
      optStrTruthy c = false → optStrTruthy m = true →
      (∃ u ∈ db.users, u.user_id = uid) →
      (∀ p ∈ db.posts, p.post_id ≠ db.nextId) →
      ∃ st, createPost db uid c m none =
          (.ok (some st),
           { db with
             posts := db.posts ++ [newPostRow db uid c m],
             nextId := db.nextId + 1 })
        ∧ st.post = newPostRow db uid c m)
    ∧ (∀ (db : DB) (s r : Nat) (c m : Option String) (w : UserRow),
      s ≠ r → userRepoGetById db r = some w →
      optStrTruthy c = false → optStrTruthy m = false →
      sendMessage db s r c m = (.err "Message must have content or media", db))
    ∧ (∀ (db : DB) (s r : Nat) (c : Option String) (w : UserRow),
      s ≠ r → userRepoGetById db r = some w →
      (∃ u ∈ db.users, u.user_id = s) →
      optStrTruthy c = true → pyLen (c.getD "") ≤ 5000 →
      sendMessage db s r c none =
        (.ok (newMessageRow db s r c none),
         { db with
           messages := db.messages ++ [newMessageRow db s r c none],
           nextId := db.nextId + 1 }))
    ∧ (∀ (db : DB) (s r : Nat) (c m : Option String) (w : UserRow),
      s ≠ r → userRepoGetById db r = some w →
      (∃ u ∈ db.users, u.user_id = s) →
      optStrTruthy c = false → optStrTruthy m = true →
      sendMessage db s r c m =
        (.ok (newMessageRow db s r c m),
         { db with
           messages := db.messages ++ [newMessageRow db s r c m],
           nextId := db.nextId + 1 })) := by
  have husers : ∀ (db : DB) (uid : Nat), (∃ u ∈ db.users, u.user_id = uid) →
      (db.users.any (fun u => u.user_id == uid)) = true := by
    intro db uid ⟨u, hu, hue⟩
    exact List.any_eq_true.mpr ⟨u, hu, by simpa using hue⟩
  have hrecvany : ∀ (db : DB) (r : Nat) (w : UserRow),
      userRepoGetById db r = some w →
      (db.users.any (fun u => u.user_id == r)) = true := by
    intro db r w hw
    have hw2 : db.users.find? (fun u => u.user_id == r) = some w := hw
    exact List.any_eq_true.mpr ⟨w, List.mem_of_find?_eq_some hw2,
      @List.find?_some UserRow (fun u => u.user_id == r) w db.users hw2⟩
  refine ⟨?_, ?_, ?_, ?_, ?_, ?_⟩
  · intro db uid c m cid hc hm
    simp [createPost, postValidate, hc, hm]
  · intro db uid c hc hlen huser hfresh
    have hlen2 : (decide (pyLen (c.getD "") > 5000)) = false := by
      simp
      omega
    have hval : postValidate c none = [] := by
      simp [postValidate, hc, hlen2]
    have hany := husers db uid huser
    have hnold : db.posts.find? (fun p => p.post_id == db.nextId) = none := by
      rw [List.find?_eq_none]
      intro p hp
      simpa using hfresh p hp
    have hfind : (db.posts ++ [newPostRow db uid c none]).find?
        (fun p => p.post_id == db.nextId) = some (newPostRow db uid c none) := by
      rw [List.find?_append, hnold]
      simp [newPostRow]
    refine ⟨statsFor { db with posts := db.posts ++ [newPostRow db uid c none], nextId := db.nextId + 1 } (some uid) (newPostRow db uid c none), ?_, rfl⟩
    simp [createPost, hval, postRepoCreate, hany, hc, postRepoGetWithStats,
      newPostRow, hfind]
    exact ⟨newPostRow db uid c none, Or.inr ⟨hfresh, rfl⟩, rfl⟩
  · intro db uid c m hc hm huser hfresh
    have hval : postValidate c m = [] := by
      simp [postValidate, hc, hm]
    have hany := husers db uid huser
    have hnold : db.posts.find? (fun p => p.post_id == db.nextId) = none := by
      rw [List.find?_eq_none]
      intro p hp
      simpa using hfresh p hp
    have hfind : (db.posts ++ [newPostRow db uid c m]).find?
        (fun p => p.post_id == db.nextId) = some (newPostRow db uid c m) := by
      rw [List.find?_append, hnold]
      simp [newPostRow]
    refine ⟨statsFor { db with posts := db.posts ++ [newPostRow db uid c m], nextId := db.nextId + 1 } (some uid) (newPostRow db uid c m), ?_, rfl⟩
    simp [createPost, hval, postRepoCreate, hany, hc, hm, postRepoGetWithStats,
      newPostRow, hfind]
    exact ⟨newPostRow db uid c m, Or.inr ⟨hfresh, rfl⟩, rfl⟩
  · intro db s r c m w hsr hw hc hm
    have hne : (s == r) = false := by simpa using hsr
    simp [sendMessage, hne, hw, messageValidate, hc, hm]
  · intro db s r c w hsr hw hsend hc hlen
    have hne : (s == r) = false := by simpa using hsr
    have hlen2 : (decide (pyLen (c.getD "") > 5000)) = false := by
      simp
      omega
    have hval : messageValidate c none = [] := by
      simp [messageValidate, hc, hlen2]
    have hs := husers db s hsend
    have hr := hrecvany db r w hw
    simp [sendMessage, hne, hw, hval, messageRepoCreate, hs, hr, hc, newMessageRow]
  · intro db s r c m w hsr hw hsend hc hm
    have hne : (s == r) = false := by simpa using hsr
    have hval : messageValidate c m = [] := by
      simp [messageValidate, hc, hm]
    have hs := husers db s hsend
    have hr := hrecvany db r w hw
    simp [sendMessage, hne, hw, hval, messageRepoCreate, hs, hr, hm, newMessageRow]

/-- Concrete runs of C7 as amended: the empty post and message fail with
the store unchanged; a short text-only post, a media-only post, a text-only
message and a media-only message all succeed. -/
theorem C7_content_or_media_required_witness :
    createPost contentDB 1 none none none =
      (.failure ["Post must have content or media"], contentDB)
    ∧ (∃ st, createPost contentDB 1 (some "text") none none =
        (.ok (some st),
         { contentDB with
           posts := contentDB.posts ++ [newPostRow contentDB 1 (some "text") none],
           nextId := contentDB.nextId + 1 })
      ∧ st.post = newPostRow contentDB 1 (some "text") none)
    ∧ (∃ st, createPost contentDB 1 none (some "http://x") none =
        (.ok (some st),
         { contentDB with
           posts := contentDB.posts ++ [newPostRow contentDB 1 none (some "http://x")],
           nextId := contentDB.nextId + 1 })
      ∧ st.post = newPostRow contentDB 1 none (some "http://x"))
    ∧ sendMessage contentDB 1 2 none none =
      (.err "Message must have content or media", contentDB)
    ∧ sendMessage contentDB 1 2 (some "hello") none =
      (.ok (newMessageRow contentDB 1 2 (some "hello") none),
       { contentDB with
         messages := contentDB.messages ++ [newMessageRow contentDB 1 2 (some "hello") none],
         nextId := contentDB.nextId + 1 })
    ∧ sendMessage contentDB 1 2 none (some "http://x") =
      (.ok (newMessageRow contentDB 1 2 none (some "http://x")),
       { contentDB with
         messages := contentDB.messages ++ [newMessageRow contentDB 1 2 none (some "http://x")],
         nextId := contentDB.nextId + 1 }) :=
  ⟨C7_content_or_media_required.1 contentDB 1 none none none rfl rfl,
   C7_content_or_media_required.2.1 contentDB 1 (some "text") (by decide)
     (by decide)
     ⟨{ user_id := 1, username := "alice", email := "a@b", password_hash := "h" },
      by decide, rfl⟩ (by decide),
   C7_content_or_media_required.2.2.1 contentDB 1 none (some "http://x") rfl
     (by decide)
     ⟨{ user_id := 1, username := "alice", email := "a@b", password_hash := "h" },
      by decide, rfl⟩ (by decide),
   C7_content_or_media_required.2.2.2.1 contentDB 1 2 none none
     { user_id := 2, username := "bob", email := "b@b", password_hash := "h" }
     (by decide) rfl rfl rfl,
   C7_content_or_media_required.2.2.2.2.1 contentDB 1 2 (some "hello")
     { user_id := 2, username := "bob", email := "b@b", password_hash := "h" }
     (by decide) rfl
     ⟨{ user_id := 1, username := "alice", email := "a@b", password_hash := "h" },
      by decide, rfl⟩ (by decide) (by decide),
   C7_content_or_media_required.2.2.2.2.2 contentDB 1 2 none (some "http://x")
     { user_id := 2, username := "bob", email := "b@b", password_hash := "h" }
     (by decide) rfl
     ⟨{ user_id := 1, username := "alice", email := "a@b", password_hash := "h" },
      by decide, rfl⟩ rfl (by decide)⟩

/-! ## C8 -/

/-- Content whose stripped form is non-empty is truthy. -/
lemma optStrTruthy_of_strip_ne (c : Option String)
    (h : (stripChars (c.getD "").data).length ≠ 0) : optStrTruthy c = true := by
  cases c with
  | none => exact absurd rfl h
  | some s =>
    by_cases hs0 : s = ""
    · subst hs0
      exact absurd rfl h
    · simp [optStrTruthy, hs0]

/-- C8: comment content that is empty or whitespace-only after trimming is
rejected with the "Comment content is required" validation error and the
store unchanged, while content with at least one non-whitespace character
within the 2000-character limit (on an existing post, by an existing user)
is persisted. -/
theorem C8_comment_content_trimmed_nonempty :
    (∀ (db : DB) (pid uid : Nat) (c : Option String),
      (stripChars (c.getD "").data).length = 0 →
      ∃ es, createComment db pid uid c none = (.errs es, db)
        ∧ "Comment content is required" ∈ es)
    ∧ (∀ (db : DB) (pid uid : Nat) (c : Option String),
      (stripChars (c.getD "").data).length ≠ 0 →
      pyLen (c.getD "") ≤ 2000 →
      (∃ p ∈ db.posts, p.post_id = pid) →
      (∃ u ∈ db.users, u.user_id = uid) →
      createComment db pid uid c none =
        (.ok { comment_id := db.nextId, post_id := pid, user_id := uid,
               content := c.getD "", parent_comment_id := none },
         { db with
           comments := db.comments ++
             [{ comment_id := db.nextId, post_id := pid, user_id := uid, content := c.getD "", parent_comment_id := none }],
           nextId := db.nextId + 1 })) := by
  constructor
  · intro db pid uid c h
    have hcond : ((stripChars (c.getD "").data).length == 0) = true := by
      simpa using h
    refine ⟨commentValidate c, ?_, ?_⟩
    · simp [createComment, createComment.createCommentBody, commentValidate, hcond, optNatTruthy]
    · simp [commentValidate, hcond]
  · intro db pid uid c hs hlen hpost huser
    have htr := optStrTruthy_of_strip_ne c hs
    have hs2 : ((stripChars (c.getD "").data).length == 0) = false := by
      simpa using hs
    have hlen2 : (decide (pyLen (c.getD "") > 2000)) = false := by
      simp
      omega
    have hval : commentValidate c = [] := by
      simp [commentValidate, htr, hs2, hlen2]
    have hpany : (db.posts.any (fun p => p.post_id == pid)) = true := by
      obtain ⟨p, hp, hpe⟩ := hpost
      exact List.any_eq_true.mpr ⟨p, hp, by simpa using hpe⟩
    have huany : (db.users.any (fun u => u.user_id == uid)) = true := by
      obtain ⟨u, hu, hue⟩ := huser
      exact List.any_eq_true.mpr ⟨u, hu, by simpa using hue⟩
    simp [createComment, createComment.createCommentBody, hval,
      commentRepoCreate, hpany, huany, hs2, optNatTruthy]

/-- Concrete runs of C8: whitespace-only content is rejected with the
store unchanged, while "hi" is persisted. -/
theorem C8_comment_content_trimmed_nonempty_witness :
    (∃ es, createComment contentDB 10 2 (some "   ") none =
        (.errs es, contentDB)
      ∧ "Comment content is required" ∈ es)
    ∧ createComment contentDB 10 2 (some "hi") none =
        (.ok { comment_id := 11, post_id := 10, user_id := 2,
               content := "hi", parent_comment_id := none },
         { contentDB with
           comments := [{ comment_id := 11, post_id := 10, user_id := 2, content := "hi", parent_comment_id := none }],
           nextId := 12 }) :=
  ⟨C8_comment_content_trimmed_nonempty.1 contentDB 10 2 (some "   ")
     (by decide),
   C8_comment_content_trimmed_nonempty.2 contentDB 10 2 (some "hi")
     (by decide) (by decide)
     ⟨{ post_id := 10, user_id := 1, content := some "hi", created_at := 1 },
      by decide, rfl⟩
     ⟨{ user_id := 2, username := "bob", email := "b@b", password_hash := "h" },
      by decide, rfl⟩⟩

/-! ## C9 -/

/-- C9: the privacy re-check in the post-read services runs only under a
truthy viewer id. With viewer `None` or `0`, `get_post` returns whatever
the stats fetch returns — in particular the full data of a private
author's post — and `get_user_posts` returns the author's unfiltered
paginated listing with no privacy denial. -/
theorem C9_privacy_check_only_when_truthy :
    (∀ (db : DB) (pid : Nat),
      getPost db pid none = postRepoGetWithStats db pid none
      ∧ getPost db pid (some 0) = postRepoGetWithStats db pid (some 0))
    ∧ (∀ (db : DB) (pid : Nat) (p : PostRow) (a : UserRow),
      postRepoGetById db pid = some p →
      userRepoGetById db p.user_id = some a →
      a.is_private = true →
      getPost db pid none = some (statsFor db none p)
      ∧ getPost db pid (some 0) = some (statsFor db (some 0) p))
    ∧ (∀ (db : DB) (P l o : Nat),
      getUserPosts db P none l o =
        { posts := postRepoGetByUserIdWithStats db P none l o,
          total := postRepoCountByUser db P, message := none }
      ∧ getUserPosts db P (some 0) l o =
        { posts := postRepoGetByUserIdWithStats db P (some 0) l o,
          total := postRepoCountByUser db P, message := none }) := by
  refine ⟨?_, ?_, ?_⟩
  · intro db pid
    constructor
    · cases h : postRepoGetWithStats db pid none with
      | none => simp [getPost, h]
      | some d => simp [getPost, h, optNatTruthy]
    · cases h : postRepoGetWithStats db pid (some 0) with
      | none => simp [getPost, h]
      | some d => simp [getPost, h, optNatTruthy]
  · intro db pid p a hp ha hpriv
    have hp2 : db.posts.find? (fun q => q.post_id == pid) = some p := hp
    constructor
    · simp [getPost, postRepoGetWithStats, hp2, optNatTruthy]
    · simp [getPost, postRepoGetWithStats, hp2, optNatTruthy]
  · intro db P l o
    constructor
    · simp [getUserPosts, optNatTruthy]
    · simp [getUserPosts, optNatTruthy]

/-- Concrete runs of C9: with viewer None or 0, the private-author post 10
and the private author listing are served in full. -/
theorem C9_privacy_check_only_when_truthy_witness :
    (getPost privateDB 10 none =
      some (statsFor privateDB none { post_id := 10, user_id := 1, content := some "hi", created_at := 1 })
    ∧ getPost privateDB 10 (some 0) =
      some (statsFor privateDB (some 0) { post_id := 10, user_id := 1, content := some "hi", created_at := 1 }))
    ∧ (getUserPosts privateDB 1 none 50 0 =
      { posts := postRepoGetByUserIdWithStats privateDB 1 none 50 0,
        total := postRepoCountByUser privateDB 1, message := none }
    ∧ getUserPosts privateDB 1 (some 0) 50 0 =
      { posts := postRepoGetByUserIdWithStats privateDB 1 (some 0) 50 0,
        total := postRepoCountByUser privateDB 1, message := none }) :=
  ⟨C9_privacy_check_only_when_truthy.2.1 privateDB 10
     { post_id := 10, user_id := 1, content := some "hi", created_at := 1 }
     { user_id := 1, username := "alice", email := "a@b", password_hash := "h", is_private := true }
     rfl rfl rfl,
   C9_privacy_check_only_when_truthy.2.2 privateDB 1 50 0⟩

/-! ## C10 -/

/-- A comment returned by the joined `get_by_id` is a stored row with the
requested id. -/
lemma commentRepoGetById_some (db : DB) (cid : Nat) (pc : CommentRow)
    (h : commentRepoGetById db cid = some pc) :
    pc ∈ db.comments ∧ pc.comment_id = cid := by
  unfold commentRepoGetById at h
  cases hf : db.comments.find? (fun cm => cm.comment_id == cid) with
  | none =>
    rw [hf] at h
    exact absurd h (by simp)
  | some q =>
    rw [hf] at h
    dsimp only at h
    by_cases hu : (db.users.any (fun u => u.user_id == q.user_id)) = true
    · rw [if_pos hu] at h
      have hqc : q = pc := by simpa using h
      subst hqc
      refine ⟨List.mem_of_find?_eq_some hf, ?_⟩
      have := @List.find?_some CommentRow (fun cm => cm.comment_id == cid) q db.comments hf
      simpa using this
    · rw [if_neg hu] at h
      simp at h

/-- Outcome analysis of the comment INSERT: either the IntegrityError
rollback with the store untouched, or the appended fresh row whose parent
(when present) is a stored comment id. -/
lemma commentRepoCreate_cases (db : DB) (pid uid : Nat) (ct : String)
    (par : Option Nat) :
    commentRepoCreate db pid uid ct par = (.error "IntegrityError", db)
    ∨ (commentRepoCreate db pid uid ct par =
        (.ok { comment_id := db.nextId, post_id := pid, user_id := uid, content := ct, parent_comment_id := par },
         { db with
           comments := db.comments ++ [{ comment_id := db.nextId, post_id := pid, user_id := uid, content := ct, parent_comment_id := par }],
           nextId := db.nextId + 1 })
      ∧ (par = none ∨ ∃ pc2 cm, par = some pc2 ∧ cm ∈ db.comments ∧ cm.comment_id = pc2)) := by
  cases par with
  | none =>
    unfold commentRepoCreate
    by_cases hg : (!(db.posts.any (fun p => p.post_id == pid))
        || !(db.users.any (fun u => u.user_id == uid))
        || (match (none : Option Nat) with
            | some pc => !(db.comments.any (fun c => c.comment_id == pc))
            | none => false)
        || (stripChars ct.data).length == 0) = true
    · left
      rw [if_pos hg]
    · right
      exact ⟨by rw [if_neg hg], Or.inl rfl⟩
  | some pc2 =>
    unfold commentRepoCreate
    by_cases hg : (!(db.posts.any (fun p => p.post_id == pid))
        || !(db.users.any (fun u => u.user_id == uid))
        || (match (some pc2 : Option Nat) with
            | some pc => !(db.comments.any (fun c => c.comment_id == pc))
            | none => false)
        || (stripChars ct.data).length == 0) = true
    · left
      rw [if_pos hg]
    · right
      have hg2 := Bool.eq_false_iff.mpr hg
      refine ⟨by rw [if_neg hg], ?_⟩
      rcases Bool.or_eq_false_iff.mp hg2 with ⟨habc, hd⟩
      rcases Bool.or_eq_false_iff.mp habc with ⟨hab, hc⟩
      have hany : (db.comments.any (fun cm => cm.comment_id == pc2)) = true := by
        simpa using hc
      obtain ⟨cm, hcm, hcme⟩ := List.any_eq_true.mp hany
      exact Or.inr ⟨pc2, cm, rfl, hcm, by simpa using hcme⟩

/-- Outcome analysis of the validation-and-insert tail of
`create_comment`. -/
lemma createCommentBody_cases (db : DB) (pid uid : Nat) (c : Option String)
    (par : Option Nat) :
    ((createComment.createCommentBody db pid uid c par).2 = db
      ∧ ∀ row, (createComment.createCommentBody db pid uid c par).1 ≠ .ok row)
    ∨ (createComment.createCommentBody db pid uid c par =
        (.ok { comment_id := db.nextId, post_id := pid, user_id := uid, content := c.getD "", parent_comment_id := par },
         { db with
           comments := db.comments ++ [{ comment_id := db.nextId, post_id := pid, user_id := uid, content := c.getD "", parent_comment_id := par }],
           nextId := db.nextId + 1 })
      ∧ (par = none ∨ ∃ pc2 cm, par = some pc2 ∧ cm ∈ db.comments ∧ cm.comment_id = pc2)) := by
  by_cases hv : (commentValidate c).isEmpty = true
  · rcases commentRepoCreate_cases db pid uid (c.getD "") par with hcr | ⟨hcr, hpar⟩
    · left
      constructor
      · simp [createComment.createCommentBody, hv, hcr]
      · intro row
        simp [createComment.createCommentBody, hv, hcr]
    · right
      refine ⟨?_, hpar⟩
      simp [createComment.createCommentBody, hv, hcr]
  · left
    constructor
    · simp [createComment.createCommentBody, hv]
    · intro row
      simp [createComment.createCommentBody, hv]

/-- Outcome analysis of `create_comment` at the service level: either a
failure with the store untouched, or the appended fresh row (with the
parent, when present, a stored comment id). -/
lemma createComment_cases (db : DB) (pid uid : Nat) (c : Option String)
    (par : Option Nat) :
    ((createComment db pid uid c par).2 = db
      ∧ ∀ row, (createComment db pid uid c par).1 ≠ .ok row)
    ∨ (createComment db pid uid c par =
        (.ok { comment_id := db.nextId, post_id := pid, user_id := uid, content := c.getD "", parent_comment_id := par },
         { db with
           comments := db.comments ++ [{ comment_id := db.nextId, post_id := pid, user_id := uid, content := c.getD "", parent_comment_id := par }],
           nextId := db.nextId + 1 })
      ∧ (par = none ∨ ∃ pc2 cm, par = some pc2 ∧ cm ∈ db.comments ∧ cm.comment_id = pc2)) := by
  by_cases hpt : optNatTruthy par = true
  · cases hpar : commentRepoGetById db (par.getD 0) with
    | none =>
      left
      constructor
      · simp [createComment, hpt, hpar]
      · intro row
        simp [createComment, hpt, hpar]
    | some parent =>
      by_cases hpp : (parent.post_id == pid) = true
      · rcases createCommentBody_cases db pid uid c par with ⟨hst, hno⟩ | ⟨hok, hfk⟩
        · left
          constructor
          · simpa [createComment, hpt, hpar, hpp] using hst
          · intro row
            have := hno row
            simpa [createComment, hpt, hpar, hpp] using this
        · right
          refine ⟨?_, hfk⟩
          simpa [createComment, hpt, hpar, hpp] using hok
      · left
        constructor
        · simp [createComment, hpt, hpar, hpp]
        · intro row
          simp [createComment, hpt, hpar, hpp]
  · have hpt2 : optNatTruthy par = false := by simpa using hpt
    rcases createCommentBody_cases db pid uid c par with ⟨hst, hno⟩ | ⟨hok, hfk⟩
    · left
      constructor
      · simpa [createComment, hpt2] using hst
      · intro row
        have := hno row
        simpa [createComment, hpt2] using this
    · right
      refine ⟨?_, hfk⟩
      simpa [createComment, hpt2] using hok

/-- C10: comment trees never span posts.  A successful `create_comment`
with a parent id requires a stored parent comment on the same post and
stamps the new row with that post and parent; failures leave the store
untouched; `reply_to_comment` inherits the parent post id; and both
operations preserve the store-wide invariant that every persisted comment
with a parent belongs to the same post as that parent.  (Comment ids are
SERIAL-allocated and hence nonzero, which the id hypothesis captures.) -/
theorem C10_comment_trees_never_span_posts :
    (∀ (db : DB) (pid uid : Nat) (c : Option String) (p : Nat) (row : CommentRow),
      (∀ cm ∈ db.comments, cm.comment_id ≠ 0) →
      (createComment db pid uid c (some p)).1 = .ok row →
      (∃ pc ∈ db.comments, pc.comment_id = p ∧ pc.post_id = pid)
        ∧ row.post_id = pid ∧ row.parent_comment_id = some p)
    ∧ (∀ (db : DB) (pid uid : Nat) (c : Option String) (par : Option Nat),
      (∀ row, (createComment db pid uid c par).1 ≠ .ok row) →
      (createComment db pid uid c par).2 = db)
    ∧ (∀ (db : DB) (cid uid : Nat) (c : Option String) (row : CommentRow),
      (replyToComment db cid uid c).1 = .ok row →
      ∃ pc ∈ db.comments, pc.comment_id = cid ∧ row.post_id = pc.post_id
        ∧ row.parent_comment_id = some cid)
    ∧ (∀ (db : DB) (pid uid : Nat) (c : Option String) (par : Option Nat),
      (∀ cm ∈ db.comments, cm.comment_id ≠ 0) →
      ParentConsistent db →
      ParentConsistent (createComment db pid uid c par).2)
    ∧ (∀ (db : DB) (cid uid : Nat) (c : Option String),
      (∀ cm ∈ db.comments, cm.comment_id ≠ 0) →
      ParentConsistent db →
      ParentConsistent (replyToComment db cid uid c).2) := by
  have hA : ∀ (db : DB) (pid uid : Nat) (c : Option String) (p : Nat)
      (row : CommentRow),
      (∀ cm ∈ db.comments, cm.comment_id ≠ 0) →
      (createComment db pid uid c (some p)).1 = .ok row →
      (∃ pc ∈ db.comments, pc.comment_id = p ∧ pc.post_id = pid)
        ∧ row.post_id = pid ∧ row.parent_comment_id = some p := by
    intro db pid uid c p row hids hok
    rcases createComment_cases db pid uid c (some p) with ⟨_, hno⟩ | ⟨hres, hfk⟩
    · exact absurd hok (hno row)
    · have hrow : row = { comment_id := db.nextId, post_id := pid, user_id := uid, content := c.getD "", parent_comment_id := some p } := by
        rw [hres] at hok
        simpa using hok.symm
      rcases hfk with hnone | ⟨pc2, cm, hpe, hcm, hcme⟩
      · exact absurd hnone (by simp)
      · have hp2 : pc2 = p := by
          have := hpe
          simpa using this.symm
        rw [hp2] at hcme
        by_cases hp0 : p = 0
        · exact absurd (hp0 ▸ hcme) (hids cm hcm)
        · have hpt : optNatTruthy (some p) = true := by simp [optNatTruthy, hp0]
          cases hpar : commentRepoGetById db p with
          | none =>
            exfalso
            rw [createComment, hpt] at hok
            simp only [if_true] at hok
            rw [show (some p).getD 0 = p from rfl, hpar] at hok
            simp at hok
          | some parent =>
            obtain ⟨hpmem, hpcid⟩ := commentRepoGetById_some db p parent hpar
            by_cases hpp : (parent.post_id == pid) = true
            · exact ⟨⟨parent, hpmem, hpcid, by simpa using hpp⟩,
                by rw [hrow], by rw [hrow]⟩
            · exfalso
              rw [createComment, hpt] at hok
              simp only [if_true] at hok
              rw [show (some p).getD 0 = p from rfl, hpar] at hok
              simp [hpp] at hok
  have hD : ∀ (db : DB) (pid uid : Nat) (c : Option String) (par : Option Nat),
      (∀ cm ∈ db.comments, cm.comment_id ≠ 0) →
      ParentConsistent db →
      ParentConsistent (createComment db pid uid c par).2 := by
    intro db pid uid c par hids hpc
    rcases createComment_cases db pid uid c par with ⟨hst, hno⟩ | ⟨hres, hfk⟩
    · rw [hst]
      exact hpc
    · rw [hres]
      intro q hq pp hqp
      have hq2 : q ∈ db.comments ++
          [{ comment_id := db.nextId, post_id := pid, user_id := uid, content := c.getD "", parent_comment_id := par }] := hq
      rcases List.mem_append.mp hq2 with hold | hnew
      · obtain ⟨t, ht, hte⟩ := hpc q hold pp hqp
        exact ⟨t, List.mem_append_left _ ht, hte⟩
      · have hqe : q = { comment_id := db.nextId, post_id := pid, user_id := uid, content := c.getD "", parent_comment_id := par } := by
          simpa using hnew
        subst hqe
        have hpar2 : par = some pp := hqp
        rcases hfk with hnone | ⟨pc2, cm, hpe, hcm, hcme⟩
        · rw [hnone] at hpar2
          exact absurd hpar2 (by simp)
        · rw [hpe] at hpar2
          have hpc2 : pc2 = pp := by simpa using hpar2
          subst hpc2
          -- the stored parent row on the same post comes from hA when the
          -- service path succeeded; recover it from the ok result
          have hok : (createComment db pid uid c (some pc2)).1 = .ok { comment_id := db.nextId, post_id := pid, user_id := uid, content := c.getD "", parent_comment_id := some pc2 } := by
            rw [hpe] at hres
            rw [hres]
          obtain ⟨⟨t, ht, hct, hpt⟩, _, _⟩ :=
            hA db pid uid c pc2 _ hids hok
          exact ⟨t, List.mem_append_left _ ht, hct, by simpa using hpt⟩
  refine ⟨hA, ?_, ?_, hD, ?_⟩
  · intro db pid uid c par hno
    rcases createComment_cases db pid uid c par with ⟨hst, _⟩ | ⟨hres, _⟩
    · exact hst
    · exact absurd (by rw [hres]) (hno _)
  · intro db cid uid c row hok
    cases hpar : commentRepoGetById db cid with
    | none =>
      exfalso
      rw [replyToComment, hpar] at hok
      simp at hok
    | some parent =>
      obtain ⟨hpmem, hpcid⟩ := commentRepoGetById_some db cid parent hpar
      have hok2 : (createComment db parent.post_id uid c (some cid)).1 = .ok row := by
        rw [replyToComment, hpar] at hok
        exact hok
      rcases createComment_cases db parent.post_id uid c (some cid) with
        ⟨_, hno⟩ | ⟨hres, _⟩
      · exact absurd hok2 (hno row)
      · have hrow : row = { comment_id := db.nextId, post_id := parent.post_id, user_id := uid, content := c.getD "", parent_comment_id := some cid } := by
          rw [hres] at hok2
          simpa using hok2.symm
        exact ⟨parent, hpmem, hpcid, by rw [hrow], by rw [hrow]⟩
  · intro db cid uid c hids hpc
    cases hpar : commentRepoGetById db cid with
    | none =>
      have hst : (replyToComment db cid uid c).2 = db := by
        simp [replyToComment, hpar]
      rw [ParentConsistent, hst]
      exact hpc
    | some parent =>
      have hst : (replyToComment db cid uid c).2 =
          (createComment db parent.post_id uid c (some cid)).2 := by
        simp [replyToComment, hpar]
      rw [ParentConsistent, hst]
      exact hD db parent.post_id uid c (some cid) hids hpc

/-- A concrete run of C10: replying to comment 20 on the private store
produces a row on post 10 with parent 20, whose stored parent is on the
same post, and the same-post invariant is preserved. -/
theorem C10_comment_trees_never_span_posts_witness :
    ((∃ pc ∈ privateDB.comments, pc.comment_id = 20 ∧ pc.post_id = 10)
      ∧ ({ comment_id := 21, post_id := 10, user_id := 2, content := "reply", parent_comment_id := some 20 } : CommentRow).post_id = 10
      ∧ ({ comment_id := 21, post_id := 10, user_id := 2, content := "reply", parent_comment_id := some 20 } : CommentRow).parent_comment_id = some 20)
    ∧ ParentConsistent (createComment privateDB 10 2 (some "reply") (some 20)).2 :=
  ⟨C10_comment_trees_never_span_posts.1 privateDB 10 2 (some "reply") 20
     { comment_id := 21, post_id := 10, user_id := 2, content := "reply", parent_comment_id := some 20 }
     (by decide) (by decide),
   C10_comment_trees_never_span_posts.2.2.2.1 privateDB 10 2 (some "reply")
     (some 20) (by decide)
     (by
       intro q hq pp hqp
       simp [privateDB] at hq
       subst hq
       simp at hqp)⟩

/-! ## C2 -/

/-- Under the no-accepted-follow hypothesis the accepted-follower check is
false. -/
lemma isAcceptedFollower_false (db : DB) (V P : Nat)
    (hno : ∀ f ∈ db.follows, f.follower_id = V → f.following_id = P →
      f.status_id ≠ 2) :
    isAcceptedFollower db V P = false := by
  unfold isAcceptedFollower followRepoGetByIds
  cases hf : db.follows.find? (fun f => f.follower_id == V && f.following_id == P) with
  | none => rfl
  | some f =>
    have hmem := List.mem_of_find?_eq_some hf
    have hpred := @List.find?_some FollowRow
      (fun f => f.follower_id == V && f.following_id == P) f db.follows hf
    rw [Bool.and_eq_true] at hpred
    have hst := hno f hmem (by simpa using hpred.1) (by simpa using hpred.2)
    simpa using hst

/-- The inner follow test of the `get_user_posts` denial is true when no
accepted follow exists. -/
lemma denyFollowCheck_true (db : DB) (V P : Nat)
    (hno : ∀ f ∈ db.follows, f.follower_id = V → f.following_id = P →
      f.status_id ≠ 2) :
    (match followRepoGetByIds db V P with
     | none => true
     | some follow => !(follow.status_id == 2)) = true := by
  unfold followRepoGetByIds
  cases hf : db.follows.find? (fun f => f.follower_id == V && f.following_id == P) with
  | none => rfl
  | some f =>
    have hmem := List.mem_of_find?_eq_some hf
    have hpred := @List.find?_some FollowRow
      (fun f => f.follower_id == V && f.following_id == P) f db.follows hf
    rw [Bool.and_eq_true] at hpred
    have hst := hno f hmem (by simpa using hpred.1) (by simpa using hpred.2)
    simpa using hst

/-- C2 counterexample: with author 1 public, viewer 2 not following, the
direct fetch and the user-posts listing serve post 10, yet the feed for
viewer 2 is empty — so "each path returns the content when P is public"
fails on the feed path. -/
theorem C2_counterexample_feed_misses_public_author :
    (userRepoGetById contentDB 1).map (fun u => u.is_private) = some false
    ∧ (getPost contentDB 10 (some 2)).isSome = true
    ∧ (getUserPosts contentDB 1 (some 2) 50 0).total = 1
      ∧ (getUserPosts contentDB 1 (some 2) 50 0).message = none
    ∧ getFeed contentDB 2 50 0 = [] := by
  have hview : userFeedView contentDB 2 = [] := by decide
  refine ⟨by decide, by decide, by decide, by decide, ?_⟩
  unfold getFeed postRepoGetFeedWithStats
  rw [hview]
  simp [sortPostsDesc]

/-- C2 as amended: for a private author P, a viewer V ≠ P with no accepted
follow is denied on all three read paths — direct fetch returns None, the
user-posts listing returns the empty denial result, and the feed contains
no post of P.  Conversely the direct fetch and the user-posts listing
return the content when P is public, V is P, or V accept-follows P; the
feed, however, only ever serves posts whose author the viewer
accept-follows, so it delivers P's posts exactly in the accepted-follow
case and not merely because P is public or V is P. -/
theorem C2_private_content_visibility :
    (∀ (db : DB) (V P : Nat) (prow : UserRow) (post_id : Nat) (post : PostRow),
      V ≠ 0 → V ≠ P →
      userRepoGetById db P = some prow → prow.is_private = true →
      (∀ f ∈ db.follows, f.follower_id = V → f.following_id = P →
        f.status_id ≠ 2) →
      postRepoGetById db post_id = some post → post.user_id = P →
      getPost db post_id (some V) = none)
    ∧ (∀ (db : DB) (V P : Nat) (prow : UserRow) (l o : Nat),
      V ≠ 0 → V ≠ P →
      userRepoGetById db P = some prow → prow.is_private = true →
      (∀ f ∈ db.follows, f.follower_id = V → f.following_id = P →
        f.status_id ≠ 2) →
      getUserPosts db P (some V) l o =
        { posts := [], total := 0, message := some "This account is private" })
    ∧ (∀ (db : DB) (V P : Nat) (prow : UserRow) (l o : Nat),
      V ≠ P →
      userRepoGetById db P = some prow → prow.is_private = true →
      (∀ f ∈ db.follows, f.follower_id = V → f.following_id = P →
        f.status_id ≠ 2) →
      ∀ q ∈ getFeed db V l o, q.post.user_id ≠ P)
    ∧ (∀ (db : DB) (V l o : Nat), ∀ q ∈ getFeed db V l o,
      ∃ f ∈ db.follows, f.follower_id = V ∧ f.following_id = q.post.user_id
        ∧ f.status_id = 2)
    ∧ (∀ (db : DB) (V P : Nat) (prow : UserRow) (post_id : Nat) (post : PostRow),
      userRepoGetById db P = some prow →
      postRepoGetById db post_id = some post → post.user_id = P →
      (prow.is_private = false ∨ V = P
        ∨ (∃ frow, followRepoGetByIds db V P = some frow ∧ frow.status_id = 2)) →
      getPost db post_id (some V) = some (statsFor db (some V) post))
    ∧ (∀ (db : DB) (V P : Nat) (prow : UserRow) (l o : Nat),
      userRepoGetById db P = some prow →
      (prow.is_private = false ∨ V = P
        ∨ (∃ frow, followRepoGetByIds db V P = some frow ∧ frow.status_id = 2)) →
      getUserPosts db P (some V) l o =
        { posts := postRepoGetByUserIdWithStats db P (some V) l o,
          total := postRepoCountByUser db P, message := none }) := by
  refine ⟨?_, ?_, ?_, ?_, ?_, ?_⟩
  · intro db V P prow post_id post hV0 hVP hprow hpriv hno hpost hpuser
    have hpost2 : db.posts.find? (fun q => q.post_id == post_id) = some post := hpost
    have hVt : optNatTruthy (some V) = true := by simp [optNatTruthy, hV0]
    have hiaf := isAcceptedFollower_false db V P hno
    have hcv : canViewPost db post V = false := by
      unfold canViewPost
      rw [hpuser]
      have hPV : (P == V) = false := by simpa using (Ne.symm hVP)
      simp [hPV, hprow, hpriv, hiaf]
    simp [getPost, postRepoGetWithStats, hpost2, hVt, hcv, statsFor_post]
  · intro db V P prow l o hV0 hVP hprow hpriv hno
    have hVt : optNatTruthy (some V) = true := by simp [optNatTruthy, hV0]
    have hVPb : (V == P) = false := by simpa using hVP
    have hfol := denyFollowCheck_true db V P hno
    simp [getUserPosts, hVt, hVPb, hprow, hpriv, hfol]
  · intro db V P prow l o hVP hprow hpriv hno q hq
    intro heq
    unfold getFeed at hq
    have hcond := (List.mem_filter.mp hq).2
    rw [heq] at hcond
    have hiaf := isAcceptedFollower_false db V P hno
    have hPV : (P == V) = false := by simpa using (Ne.symm hVP)
    rw [hprow] at hcond
    simp [hPV, hpriv, hiaf] at hcond
  · intro db V l o q hq
    unfold getFeed at hq
    have hmem := (List.mem_filter.mp hq).1
    unfold postRepoGetFeedWithStats at hmem
    obtain ⟨p, hp, hpe⟩ := List.mem_map.mp hmem
    have hp2 : p ∈ sortPostsDesc (userFeedView db V) :=
      List.mem_of_mem_drop (List.mem_of_mem_take hp)
    have hp3 : p ∈ userFeedView db V :=
      ((List.mergeSort_perm (userFeedView db V)
        (fun a b => decide (b.created_at ≤ a.created_at))).mem_iff).mp hp2
    have hp4 := (List.mem_filter.mp hp3).2
    rw [Bool.and_eq_true] at hp4
    obtain ⟨f, hf, hfp⟩ := List.any_eq_true.mp hp4.1
    rw [Bool.and_eq_true, Bool.and_eq_true] at hfp
    have hqp : q.post = p := by rw [← hpe, statsFor_post]
    refine ⟨f, hf, by simpa using hfp.1.1, ?_, by simpa using hfp.2⟩
    rw [hqp]
    simpa using hfp.1.2
  · intro db V P prow post_id post hprow hpost hpuser hallow
    have hpost2 : db.posts.find? (fun q => q.post_id == post_id) = some post := hpost
    have hcv : canViewPost db post V = true := by
      unfold canViewPost
      rw [hpuser]
      by_cases hPV : (P == V) = true
      · simp [hPV]
      · rcases hallow with hpub | hself | ⟨frow, hfr, hfr2⟩
        · simp [hPV, hprow, hpub]
        · exact absurd (by simpa using hself.symm) hPV
        · have hia : isAcceptedFollower db V P = true := by
            unfold isAcceptedFollower
            rw [hfr]
            simpa using hfr2
          simp [hPV, hprow, hia]
    simp [getPost, postRepoGetWithStats, hpost2, hcv, statsFor_post]
  · intro db V P prow l o hprow hallow
    have hden : (optNatTruthy (some V) && !((some V).getD 0 == P)
        && (match userRepoGetById db P with
            | some post_author => post_author.is_private
                && (match followRepoGetByIds db ((some V).getD 0) P with
                    | none => true
                    | some follow => !(follow.status_id == 2))
            | none => false)) = false := by
      rcases hallow with hpub | hself | ⟨frow, hfr, hfr2⟩
      · rw [hprow]
        simp [hpub]
      · subst hself
        simp
      · rw [hprow]
        simp only [Option.getD_some]
        rw [hfr]
        simp [hfr2]
    unfold getUserPosts
    rw [hden]
    simp

/-- Concrete runs of C2 as amended on the private store: viewer 2 is
denied post 10 by all three paths, while the author themself gets the
post and the listing. -/
theorem C2_private_content_visibility_witness :
    getPost privateDB 10 (some 2) = none
    ∧ getUserPosts privateDB 1 (some 2) 50 0 =
        { posts := [], total := 0, message := some "This account is private" }
    ∧ (∀ q ∈ getFeed privateDB 2 50 0, q.post.user_id ≠ 1)
    ∧ getPost privateDB 10 (some 1) =
        some (statsFor privateDB (some 1)
          { post_id := 10, user_id := 1, content := some "hi", created_at := 1 })
    ∧ getUserPosts privateDB 1 (some 1) 50 0 =
        { posts := postRepoGetByUserIdWithStats privateDB 1 (some 1) 50 0,
          total := postRepoCountByUser privateDB 1, message := none } :=
  ⟨C2_private_content_visibility.1 privateDB 2 1
     { user_id := 1, username := "alice", email := "a@b", password_hash := "h", is_private := true }
     10 { post_id := 10, user_id := 1, content := some "hi", created_at := 1 }
     (by decide) (by decide) rfl rfl (by decide) rfl rfl,
   C2_private_content_visibility.2.1 privateDB 2 1
     { user_id := 1, username := "alice", email := "a@b", password_hash := "h", is_private := true }
     50 0 (by decide) (by decide) rfl rfl (by decide),
   C2_private_content_visibility.2.2.1 privateDB 2 1
     { user_id := 1, username := "alice", email := "a@b", password_hash := "h", is_private := true }
     50 0 (by decide) rfl rfl (by decide),
   C2_private_content_visibility.2.2.2.2.1 privateDB 1 1
     { user_id := 1, username := "alice", email := "a@b", password_hash := "h", is_private := true }
     10 { post_id := 10, user_id := 1, content := some "hi", created_at := 1 }
     rfl rfl rfl (Or.inr (Or.inl rfl)),
   C2_private_content_visibility.2.2.2.2.2 privateDB 1 1
     { user_id := 1, username := "alice", email := "a@b", password_hash := "h", is_private := true }
     50 0 rfl (Or.inr (Or.inl rfl))⟩

/-! ## C4 -/

/-- C4 counterexample: community 1 of `soleAdminDB` has exactly one admin
member (user 2, role_id 1), who is not the creator; yet `remove_member`
targeting that admin succeeds and leaves the community with no members,
and `change_member_role` downgrades that admin to role 3 — both mutations
the claim says must fail. -/
theorem C4_counterexample_sole_noncreator_admin :
    soleAdminDB.members = [{ community_id := 1, user_id := 2, role_id := 1, joined_at := 5 }]
    ∧ (soleAdminDB.communities.map (fun c => c.creator_id)) = [1]
    ∧ removeMember soleAdminDB 1 2 2 =
        (.ok true, { soleAdminDB with members := [] })
    ∧ (changeMemberRole soleAdminDB 1 2 2 3).1 =
        .ok (some { community_id := 1, user_id := 2, role_id := 3, joined_at := 5 }) := by
  refine ⟨by decide, by decide, rfl, rfl⟩

/-- C4 as amended: in a community state with exactly one admin among the
joined membership rows (community within the 1000-row page),
`leave_community` by that admin always fails with the store unchanged;
`remove_member` targeting the admin and `change_member_role` moving the
admin off the admin role fail for every requester when that sole admin is
the community creator.  (For a sole admin who is not the creator, only
`leave_community` blocks — see the counterexample.) -/
theorem C4_last_admin_protection :
    (∀ (db : DB) (cid A : Nat) (com : CommunityRow) (am : MemberRow),
      communityRepoGetById db cid = some com →
      communityRepoGetMember db cid A = some am → am.role_id = 1 →
      ((memberJoinRows db cid).filter (fun m => m.role_id == 1)).length = 1 →
      (memberJoinRows db cid).length ≤ 1000 →
      leaveCommunity db cid A =
        (.error "You are the only admin. Assign another admin before leaving or delete the community", db))
    ∧ (∀ (db : DB) (cid requester : Nat) (com : CommunityRow) (am : MemberRow),
      communityRepoGetById db cid = some com →
      communityRepoGetMember db cid com.creator_id = some am →
      am.role_id = 1 →
      ∃ msg, removeMember db cid requester com.creator_id = (.error msg, db))
    ∧ (∀ (db : DB) (cid requester new_role : Nat) (com : CommunityRow)
        (am : MemberRow),
      communityRepoGetById db cid = some com →
      communityRepoGetMember db cid com.creator_id = some am →
      am.role_id = 1 →
      ((memberJoinRows db cid).filter (fun m => m.role_id == 1)).length = 1 →
      (memberJoinRows db cid).length ≤ 1000 →
      new_role ≠ 1 →
      ∃ msg, changeMemberRole db cid requester com.creator_id new_role =
        (.error msg, db)) := by
  refine ⟨?_, ?_, ?_⟩
  · intro db cid A com am hcom hmem ham hcount hlen
    simp [leaveCommunity, hcom, hmem, ham,
      getMembers_1000_admin_count db cid hlen, hcount]
  · intro db cid requester com am hcom hmem ham
    cases hreq : communityRepoGetMember db cid requester with
    | none =>
      exact ⟨"You are not a member of this community",
        by simp [removeMember, hcom, hreq]⟩
    | some rm =>
      by_cases hrole : (rm.role_id == 1 || rm.role_id == 2) = true
      · exact ⟨"Cannot remove the community creator who is an admin",
          by simp [removeMember, hcom, hreq, hrole, hmem, ham]⟩
      · have hrole2 := Bool.eq_false_iff.mpr hrole
        exact ⟨"Only admins or moderators can remove members",
          by simp [removeMember, hcom, hreq, hrole2]⟩
  · intro db cid requester new_role com am hcom hmem ham hcount hlen hnr
    by_cases hval : (new_role == 1 || new_role == 2 || new_role == 3) = true
    · cases hreq : communityRepoGetMember db cid requester with
      | none =>
        exact ⟨"You are not a member of this community",
          by simp [changeMemberRole, hval, hcom, hreq]⟩
      | some rm =>
        by_cases hradmin : (rm.role_id == 1) = true
        · have hnr2 : (new_role == 1) = false := by simpa using hnr
          refine ⟨"Cannot change role of the only admin. Assign another admin first", ?_⟩
          simp [changeMemberRole, hval, hcom, hreq, hradmin, hmem, ham,
            getMembers_1000_admin_count db cid hlen, hcount, hnr2]
          intro h2
          have hv := hval
          simp at hv
          rcases hv with (h | h) | h
          · exact absurd h hnr
          · exact absurd h h2
          · exact h
        · have hradmin2 := Bool.eq_false_iff.mpr hradmin
          exact ⟨"Only admins can change member roles",
            by simp [changeMemberRole, hval, hcom, hreq, hradmin2]⟩
    · have hval2 := Bool.eq_false_iff.mpr hval
      exact ⟨"Invalid role_id. Must be 1 (admin), 2 (moderator), or 3 (member)",
        by simp [changeMemberRole, hval2]⟩

/-- Concrete runs of C4 as amended on `creatorAdminDB` (creator 1 is the
sole admin): the creator cannot leave, cannot be removed by any requester,
and cannot be downgraded. -/
theorem C4_last_admin_protection_witness :
    leaveCommunity creatorAdminDB 1 1 =
      (.error "You are the only admin. Assign another admin before leaving or delete the community", creatorAdminDB)
    ∧ (∃ msg, removeMember creatorAdminDB 1 1 1 = (.error msg, creatorAdminDB))
    ∧ (∃ msg, changeMemberRole creatorAdminDB 1 1 1 3 = (.error msg, creatorAdminDB)) :=
  ⟨C4_last_admin_protection.1 creatorAdminDB 1 1
     { community_id := 1, name := "Comm", description := "d", creator_id := 1, privacy_id := 1 }
     { community_id := 1, user_id := 1, role_id := 1, joined_at := 4 }
     rfl rfl rfl (by decide) (by decide),
   C4_last_admin_protection.2.1 creatorAdminDB 1 1
     { community_id := 1, name := "Comm", description := "d", creator_id := 1, privacy_id := 1 }
     { community_id := 1, user_id := 1, role_id := 1, joined_at := 4 }
     rfl rfl rfl,
   C4_last_admin_protection.2.2 creatorAdminDB 1 1 3
     { community_id := 1, name := "Comm", description := "d", creator_id := 1, privacy_id := 1 }
     { community_id := 1, user_id := 1, role_id := 1, joined_at := 4 }
     rfl rfl rfl (by decide) (by decide) (by decide)⟩

end Social
